import Mathlib

/-!
# ZATCA e-invoice front end: `static/js/main.js`

A verification development for the three behaviours of `main.js` that carry
logic: the row calculation (`calculateRowTotal`), the notification helper
(`showNotification`) and the status check (`checkInvoiceStatus`).

JavaScript numbers are IEEE-754 binary64 values.  They are modelled by `F64`
with correctly rounded (round-to-nearest, ties-to-even) operations computed in
integer arithmetic, so every numeric statement below is about the doubles the
browser computes, not about an idealised number system.

The markup that `showNotification` inserts is parsed, as the browser does
with `insertAdjacentHTML`: a message that holds tags creates the elements
those tags describe.
-/

namespace Zatca

/-! ## IEEE-754 binary64 -/

/-- A JavaScript number.  `fin neg m e` is the finite non-zero value
`± m * 2 ^ e`; the operations below only ever build it in IEEE form
(`2^52 ≤ m < 2^53` and `-1074 ≤ e ≤ 971`, or `0 < m < 2^52` and `e = -1074`). -/
inductive F64 where
  | nan
  | inf (neg : Bool)
  | zero (neg : Bool)
  | fin (neg : Bool) (m : Nat) (e : Int)
  deriving DecidableEq, Repr

namespace F64

/-- Binary digit count by repeated halving; `fuel` bounds the recursion. -/
def bitLengthAux : Nat → Nat → Nat
  | 0, _ => 0
  | fuel + 1, n => if n = 0 then 0 else bitLengthAux fuel (n / 2) + 1

/-- Number of binary digits of `n` (`0` for `0`). -/
def bitLength (n : Nat) : Nat := bitLengthAux n n

/-- Packs a rounded significand `m` at quantum exponent `qe`: renormalises a
carry out of the 53-bit significand and turns exponent overflow into an
infinity. -/
def pack (neg : Bool) (m : Nat) (qe : Int) : F64 :=
  if m = 0 then zero neg
  else
    let m1 := if m = 2 ^ 53 then 2 ^ 52 else m
    let e1 := if m = 2 ^ 53 then qe + 1 else qe
    if e1 > 971 then inf neg else fin neg m1 e1

/-- Correct rounding of the exact value `± M * 2 ^ E` to binary64. -/
def roundDyadic (neg : Bool) (M : Nat) (E : Int) : F64 :=
  if M = 0 then zero neg
  else
    let ev : Int := E + (bitLength M : Int) - 1
    let qe : Int := max (ev - 52) (-1074)
    if qe ≤ E then
      pack neg (M * 2 ^ (E - qe).toNat) qe
    else
      let sh := (qe - E).toNat
      let mq := M / 2 ^ sh
      let r := M % 2 ^ sh
      let half := 2 ^ (sh - 1)
      let up := decide (half < r) || (decide (r = half) && decide (mq % 2 = 1))
      pack neg (if up then mq + 1 else mq) qe

/-- Correct rounding of the exact value `± (num / den) * 2 ^ E` to binary64,
for `num, den > 0`.  The quotient is taken with at least 64 significant bits
and a sticky bit for the remainder, which decides every rounding case. -/
def roundQuot (neg : Bool) (num den : Nat) (E : Int) : F64 :=
  let k := 64 + bitLength den
  let q := (num * 2 ^ k) / den
  let r := (num * 2 ^ k) % den
  roundDyadic neg (2 * q + (if r = 0 then 0 else 1)) (E - (k : Int) - 1)

/-- The double nearest to a natural number (a numeric literal of the source). -/
def ofNat (n : Nat) : F64 := roundDyadic false n 0

/-- JavaScript unary minus. -/
def neg : F64 → F64
  | nan => nan
  | inf s => inf (!s)
  | zero s => zero (!s)
  | fin s m e => fin (!s) m e

/-- JavaScript `*`. -/
def mul : F64 → F64 → F64
  | nan, _ => nan
  | _, nan => nan
  | inf _, zero _ => nan
  | zero _, inf _ => nan
  | inf s, inf t => inf (s != t)
  | inf s, fin t _ _ => inf (s != t)
  | fin s _ _, inf t => inf (s != t)
  | zero s, zero t => zero (s != t)
  | zero s, fin t _ _ => zero (s != t)
  | fin s _ _, zero t => zero (s != t)
  | fin s m e, fin t n f => roundDyadic (s != t) (m * n) (e + f)

/-- The signed integer `± m`. -/
def signed (s : Bool) (m : Nat) : Int := if s then -(m : Int) else (m : Int)

/-- JavaScript `+`on numbers. -/
def add : F64 → F64 → F64
  | nan, _ => nan
  | _, nan => nan
  | inf s, inf t => if s = t then inf s else nan
  | inf s, _ => inf s
  | _, inf t => inf t
  | zero s, zero t => zero (s && t)
  | zero _, fin t n f => fin t n f
  | fin s m e, zero _ => fin s m e
  | fin s m e, fin t n f =>
    let g := min e f
    let sum := signed s (m * 2 ^ (e - g).toNat) + signed t (n * 2 ^ (f - g).toNat)
    if sum = 0 then zero false else roundDyadic (decide (sum < 0)) sum.natAbs g

/-- JavaScript binary `-`. -/
def sub (a b : F64) : F64 := add a (neg b)

/-- JavaScript `/`. -/
def div : F64 → F64 → F64
  | nan, _ => nan
  | _, nan => nan
  | inf _, inf _ => nan
  | zero _, zero _ => nan
  | inf s, zero t => inf (s != t)
  | inf s, fin t _ _ => inf (s != t)
  | zero s, inf t => zero (s != t)
  | zero s, fin t _ _ => zero (s != t)
  | fin s _ _, inf t => zero (s != t)
  | fin s _ _, zero t => inf (s != t)
  | fin s m e, fin t n f => roundQuot (s != t) m n (e - f)

/-- JavaScript truthiness of a number: `NaN`, `+0` and `-0` are falsy. -/
def truthy : F64 → Bool
  | nan => false
  | zero _ => false
  | _ => true

/-- The rational number a double stands for; `none` for `NaN` and the
infinities. -/
def toRat : F64 → Option ℚ
  | nan => none
  | inf _ => none
  | zero _ => some 0
  | fin s m e => some ((if s then -1 else 1) * (m : ℚ) * (2 : ℚ) ^ e)

/-- Specification of correct rounding: `r` is the binary64 value of sign
`neg` nearest to the positive magnitude `x`, ties going to the even
significand; magnitudes of at most half the least subnormal give zero, and
magnitudes from `2^1024 - 2^970` on give infinity. -/
def IsRounding (neg : Bool) (x : ℚ) (r : F64) : Prop :=
  match r with
  | nan => False
  | inf s => s = neg ∧ (2 : ℚ) ^ (1024 : ℤ) - 2 ^ (970 : ℤ) ≤ x
  | zero s => s = neg ∧ x ≤ 2 ^ (-1075 : ℤ)
  | fin s m e =>
    s = neg ∧ 0 < m ∧ m < 2 ^ 53 ∧ -1074 ≤ e ∧ e ≤ 971 ∧ (2 ^ 52 ≤ m ∨ e = -1074) ∧
    |(m : ℚ) * 2 ^ e - x| ≤ 2 ^ e / 2 ∧
    (|(m : ℚ) * 2 ^ e - x| = 2 ^ e / 2 → m % 2 = 0)

end F64

/-! ## `parseFloat` -/

/-- Code points that `parseFloat` skips at the start of its argument: the
ECMAScript `WhiteSpace` and `LineTerminator` productions. -/
def isWhiteSpace (c : Char) : Bool :=
  let n := c.toNat
  n = 0x09 || n = 0x0A || n = 0x0B || n = 0x0C || n = 0x0D || n = 0x20 ||
  n = 0xA0 || n = 0x1680 || (0x2000 ≤ n && n ≤ 0x200A) || n = 0x2028 ||
  n = 0x2029 || n = 0x202F || n = 0x205F || n = 0x3000 || n = 0xFEFF

/-- Value of a string of decimal digits. -/
def digitsValue (ds : List Char) : Nat :=
  ds.foldl (fun acc c => 10 * acc + (c.toNat - 48)) 0

/-- The `ExponentPart` at the head of `cs`, if there is one: `e` or `E`, an
optional sign and at least one digit.  Anything else is not part of the
numeric prefix and counts as exponent `0`. -/
def exponentPart (cs : List Char) : Int :=
  match cs with
  | c :: rest =>
    if c = 'e' || c = 'E' then
      match rest with
      | '-' :: ds =>
        if (ds.takeWhile Char.isDigit).isEmpty then 0
        else -(digitsValue (ds.takeWhile Char.isDigit) : Int)
      | '+' :: ds => (digitsValue (ds.takeWhile Char.isDigit) : Int)
      | ds => (digitsValue (ds.takeWhile Char.isDigit) : Int)
    else 0
  | [] => 0

/-- The double nearest to `± D * 10 ^ p`. -/
def decimalValue (neg : Bool) (D : Nat) (p : Int) : F64 :=
  if D = 0 then F64.zero neg
  else if 0 ≤ p then F64.roundDyadic neg (D * 10 ^ p.toNat) 0
  else F64.roundQuot neg D (10 ^ (-p).toNat) 0

/-- The longest prefix of `cs` that is a `StrUnsignedDecimalLiteral`, as a
number of sign `neg`; `NaN` when no prefix is one. -/
def parseUnsigned (neg : Bool) (cs : List Char) : F64 :=
  if "Infinity".toList.isPrefixOf cs then F64.inf neg
  else
    let intDigits := cs.takeWhile Char.isDigit
    let afterInt := cs.dropWhile Char.isDigit
    match afterInt with
    | '.' :: tl =>
      let fracDigits := tl.takeWhile Char.isDigit
      if intDigits.isEmpty && fracDigits.isEmpty then F64.nan
      else
        decimalValue neg (digitsValue (intDigits ++ fracDigits))
          (exponentPart (tl.dropWhile Char.isDigit) - (fracDigits.length : Int))
    | _ =>
      if intDigits.isEmpty then F64.nan
      else decimalValue neg (digitsValue intDigits) (exponentPart afterInt)

/-- JavaScript `parseFloat` applied to a string: leading white space is
skipped, then the longest prefix that is a decimal literal is converted;
the result is `NaN` when there is no such prefix. -/
def parseFloat (s : String) : F64 :=
  match s.toList.dropWhile isWhiteSpace with
  | '-' :: cs => parseUnsigned true cs
  | '+' :: cs => parseUnsigned false cs
  | cs => parseUnsigned false cs

/-! ## Row calculation (`calculateRowTotal`) -/

/-- An `<input>` element, as far as the script reads it: its `value`. -/
structure InputElement where
  value : String
  deriving DecidableEq, Repr

/-- A `.formset-row`, seen through the four `row.querySelector` calls of
`calculateRowTotal`: each is the first matching input, or `none` for `null`. -/
structure Row where
  quantityInput : Option InputElement
  priceInput : Option InputElement
  vatRateInput : Option InputElement
  discountInput : Option InputElement
  deriving DecidableEq, Repr

/-- The three locals `subtotal`, `vatAmount` and `total` that
`calculateRowTotal` computes and hands to `console.log` (there formatted
with `toFixed(2)`). -/
structure RowTotals where
  subtotal : F64
  vatAmount : F64
  total : F64
  deriving DecidableEq, Repr

/-- The expression `x || 0` for a number `x`. -/
def orZero (x : F64) : F64 := if x.truthy then x else F64.zero false

/-- The argument of `parseFloat(discountInput?.value)`: optional chaining
yields `undefined` for a missing input, which `parseFloat` converts to the
string `"undefined"`. -/
def optionalValue (input : Option InputElement) : String :=
  match input with
  | some el => el.value
  | none => "undefined"

/-- The function `calculateRowTotal(row)`.  The result is `none` when the
guard `if (!quantityInput || !priceInput || !vatRateInput) return;` leaves
the function before anything is computed or logged. -/
def calculateRowTotal (row : Row) : Option RowTotals :=
  match row.quantityInput, row.priceInput, row.vatRateInput with
  | some quantityInput, some priceInput, some vatRateInput =>
    let quantity := orZero (parseFloat quantityInput.value)
    let price := orZero (parseFloat priceInput.value)
    let vatRate := orZero (parseFloat vatRateInput.value)
    let discount := orZero (parseFloat (optionalValue row.discountInput))
    let subtotal := F64.sub (F64.mul quantity price) discount
    let vatAmount := F64.mul subtotal (F64.div vatRate (F64.ofNat 100))
    let total := F64.add subtotal vatAmount
    some { subtotal := subtotal, vatAmount := vatAmount, total := total }
  | _, _, _ => none

/-- A number that is not `NaN` and has its sign bit clear: `+0`, a positive
finite double or `+Infinity`. -/
def isNonNegative : F64 → Bool
  | F64.zero false => true
  | F64.inf false => true
  | F64.fin false _ _ => true
  | _ => false

/-- The row whose four inputs hold the given texts. -/
def rowOfValues (quantity price vatRate discount : String) : Row :=
  { quantityInput := some ⟨quantity⟩, priceInput := some ⟨price⟩,
    vatRateInput := some ⟨vatRate⟩, discountInput := some ⟨discount⟩ }

/-- An input counted as `0`: a missing input, or one whose value
`parseFloat` turns into `NaN`, is replaced by an input holding `"0"`. -/
def countedAsZero (input : Option InputElement) : Option InputElement :=
  match input with
  | none => some ⟨"0"⟩
  | some el => if parseFloat el.value = F64.nan then some ⟨"0"⟩ else some el

/-- The row with every missing or unparsable field counted as `0`. -/
def zeroFilled (row : Row) : Row :=
  { quantityInput := countedAsZero row.quantityInput,
    priceInput := countedAsZero row.priceInput,
    vatRateInput := countedAsZero row.vatRateInput,
    discountInput := countedAsZero row.discountInput }

/-! ## JavaScript values -/

/-- A JavaScript value as the script meets it: `undefined`, or a value that
`response.json()` can produce.  `object props` lists the own properties of
the parsed object (each key once). -/
inductive JsValue where
  | undefined
  | null
  | bool (b : Bool)
  | number (x : F64)
  | string (s : String)
  | array (items : List JsValue)
  | object (props : List (String × JsValue))

namespace JsValue

/-- JavaScript truthiness (`ToBoolean`). -/
def truthy : JsValue → Bool
  | undefined => false
  | null => false
  | bool b => b
  | number x => x.truthy
  | string s => !s.isEmpty
  | array _ => true
  | object _ => true

/-- Property read `v.key` for a key that no built-in prototype defines
(`success` and `message` are such keys).  `none` is the `TypeError` of
reading a property of `undefined` or `null`; a value without an own
property of that name yields `undefined`. -/
def getProp (v : JsValue) (key : String) : Option JsValue :=
  match v with
  | undefined => none
  | null => none
  | object props => some ((props.lookup key).getD undefined)
  | _ => some undefined

mutual
/-- String conversion of a value interpolated into a template literal
(`ToString`), with the formatting of numbers given by `fmt`.  `none` is the
`TypeError` raised for an object whose own `toString` property (never
callable in parsed JSON) hides `Object.prototype.toString`. -/
def toDisplayString (fmt : F64 → String) : JsValue → Option String
  | undefined => some "undefined"
  | null => some "null"
  | bool b => some (if b then "true" else "false")
  | number x => some (fmt x)
  | string s => some s
  | array items => joinItems fmt items
  | object props =>
    if (props.map Prod.fst).contains "toString" then none else some "[object Object]"
termination_by structural v => v
/-- The method `Array.prototype.join` with the default separator:
`undefined` and `null` elements contribute the empty string. -/
def joinItems (fmt : F64 → String) : List JsValue → Option String
  | [] => some ""
  | x :: rest =>
    match (match x with
      | undefined => some ""
      | null => some ""
      | v => toDisplayString fmt v), joinItems fmt rest with
    | some a, some b => some (if rest.isEmpty then a else a ++ "," ++ b)
    | _, _ => none
termination_by structural l => l
end

end JsValue

/-! ## Notifications (`showNotification`) -/

/-- What the lookup `{...}[type] || 'alert-info'` can evaluate to. -/
inductive ClassValue where
  | text (s : String)
  | nativeFunction (name : String)
  | objectPrototype
  deriving DecidableEq, Repr

namespace ClassValue

/-- JavaScript truthiness: functions and objects are truthy, a string is
truthy unless empty. -/
def truthy : ClassValue → Bool
  | text s => !s.isEmpty
  | nativeFunction _ => true
  | objectPrototype => true

/-- String conversion inside the template literal (a built-in function
prints in the form used by V8). -/
def render : ClassValue → String
  | text s => s
  | nativeFunction name => "function " ++ name ++ "() \x7b [native code] \x7d"
  | objectPrototype => "[object Object]"

end ClassValue

/-- Own properties of the object literal in `showNotification`. -/
def alertClassTable : List (String × String) :=
  [("success", "alert-success"), ("error", "alert-danger"),
   ("warning", "alert-warning"), ("info", "alert-info")]

/-- Function-valued properties that every object literal inherits from
`Object.prototype`: property key and name of the function. -/
def objectPrototypeFunctions : List (String × String) :=
  [("constructor", "Object"), ("hasOwnProperty", "hasOwnProperty"),
   ("isPrototypeOf", "isPrototypeOf"),
   ("propertyIsEnumerable", "propertyIsEnumerable"),
   ("toLocaleString", "toLocaleString"), ("toString", "toString"),
   ("valueOf", "valueOf"), ("__defineGetter__", "__defineGetter__"),
   ("__defineSetter__", "__defineSetter__"),
   ("__lookupGetter__", "__lookupGetter__"),
   ("__lookupSetter__", "__lookupSetter__")]

/-- Property read `{success: ..., error: ..., warning: ..., info: ...}[type]`:
an own property, else a member of `Object.prototype`, else `undefined`
(`none`). -/
def alertClassLookup (type : String) : Option ClassValue :=
  match alertClassTable.lookup type with
  | some c => some (ClassValue.text c)
  | none =>
    match objectPrototypeFunctions.lookup type with
    | some name => some (ClassValue.nativeFunction name)
    | none => if type = "__proto__" then some ClassValue.objectPrototype else none

/-- The local `alertClass` of `showNotification`: the looked-up value, or
`'alert-info'` when that value is falsy. -/
def alertClass (type : String) : ClassValue :=
  match alertClassLookup type with
  | some v => if v.truthy then v else ClassValue.text "alert-info"
  | none => ClassValue.text "alert-info"

/-! ## Markup (`insertAdjacentHTML`)

`showNotification` hands its markup to `insertAdjacentHTML`, which runs the
HTML fragment parser on it, the message included.  The parser is modelled on
the markup that the template and simple messages are made of: text, start
tags of `div` and `button` elements with double-quoted attributes, and their
end tags, in a container that is an ordinary flow element.  On any other
markup (character references, comments, other elements, other attribute
syntax, carriage returns, NUL) the model gives no answer (`none`). -/

/-- A token of the HTML tokenizer. -/
inductive Token where
  | startTag (name : String) (attrs : List (String × String))
  | endTag (name : String)
  | text (s : String)
  deriving DecidableEq, Repr

/-- The states of the tokenizer that the modelled markup passes through. -/
inductive TokenMode where
  | data
  | tagOpen
  | endTagOpen
  | startName (name : String)
  | endName (name : String)
  | beforeAttr (tag : String) (attrs : List (String × String))
  | attrName (tag : String) (attrs : List (String × String)) (name : String)
  | beforeValue (tag : String) (attrs : List (String × String)) (name : String)
  | attrValue (tag : String) (attrs : List (String × String)) (name value : String)
  | afterValue (tag : String) (attrs : List (String × String))
  deriving DecidableEq, Repr

/-- The tokenizer while it reads: its state, the text read since the last
tag, and the tokens emitted so far, the latest first. -/
structure TokenState where
  mode : TokenMode
  pending : List Char
  tokens : List Token
  deriving DecidableEq, Repr

/-- White space inside a tag. -/
def isTagSpace (c : Char) : Bool := c = ' ' || c = '\t' || c = '\n' || c = '\x0c'

/-- Characters of the tag and attribute names of the modelled markup. -/
def isNameChar (c : Char) : Bool := c.isAlphanum || c = '-'

/-- Characters that are plain text to the HTML parser: everything but `<`
(a tag), `&` (a character reference), carriage return (normalised to a line
feed) and NUL (dropped). -/
def isPlainChar (c : Char) : Bool := !(c = '<' || c = '&' || c = '\r' || c = '\x00')

/-- Characters that stand for themselves inside a double-quoted attribute
value. -/
def isValueChar (c : Char) : Bool := !(c = '"' || c = '&' || c = '\r' || c = '\x00')

/-- Emits the pending text, if any, as a text token. -/
def flushText (pending : List Char) (tokens : List Token) : List Token :=
  if pending.isEmpty then tokens else Token.text (String.mk pending) :: tokens

/-- One step of the tokenizer; `none` outside the modelled markup. -/
def tokenStep (s : TokenState) (c : Char) : Option TokenState :=
  match s.mode with
  | TokenMode.data =>
    if c = '<' then
      some { mode := TokenMode.tagOpen, pending := [], tokens := flushText s.pending s.tokens }
    else if isPlainChar c then some { s with pending := s.pending ++ [c] }
    else none
  | TokenMode.tagOpen =>
    if c = '/' then some { s with mode := TokenMode.endTagOpen }
    else if c.isAlpha then
      some { s with mode := TokenMode.startName (String.singleton c.toLower) }
    else none
  | TokenMode.endTagOpen =>
    if c.isAlpha then some { s with mode := TokenMode.endName (String.singleton c.toLower) }
    else none
  | TokenMode.startName name =>
    if c = '>' then
      some { s with mode := TokenMode.data, tokens := Token.startTag name [] :: s.tokens }
    else if isTagSpace c then some { s with mode := TokenMode.beforeAttr name [] }
    else if isNameChar c then some { s with mode := TokenMode.startName (name.push c.toLower) }
    else none
  | TokenMode.endName name =>
    if c = '>' then
      some { s with mode := TokenMode.data, tokens := Token.endTag name :: s.tokens }
    else if isNameChar c then some { s with mode := TokenMode.endName (name.push c.toLower) }
    else none
  | TokenMode.beforeAttr tag attrs =>
    if c = '>' then
      some { s with mode := TokenMode.data, tokens := Token.startTag tag attrs :: s.tokens }
    else if isTagSpace c then some s
    else if isNameChar c then
      some { s with mode := TokenMode.attrName tag attrs (String.singleton c.toLower) }
    else none
  | TokenMode.attrName tag attrs name =>
    if c = '=' then some { s with mode := TokenMode.beforeValue tag attrs name }
    else if isNameChar c then
      some { s with mode := TokenMode.attrName tag attrs (name.push c.toLower) }
    else none
  | TokenMode.beforeValue tag attrs name =>
    if c = '"' then some { s with mode := TokenMode.attrValue tag attrs name "" }
    else none
  | TokenMode.attrValue tag attrs name value =>
    if c = '"' then some { s with mode := TokenMode.afterValue tag (attrs ++ [(name, value)]) }
    else if isValueChar c then
      some { s with mode := TokenMode.attrValue tag attrs name (value.push c) }
    else none
  | TokenMode.afterValue tag attrs =>
    if c = '>' then
      some { s with mode := TokenMode.data, tokens := Token.startTag tag attrs :: s.tokens }
    else if isTagSpace c then some { s with mode := TokenMode.beforeAttr tag attrs }
    else none

/-- The tokenizer before it has read anything. -/
def tokenStart : TokenState := { mode := TokenMode.data, pending := [], tokens := [] }

/-- The tokens of a markup text, in order; `none` outside the modelled
markup, which includes markup that ends inside a tag. -/
def tokenize (markup : List Char) : Option (List Token) :=
  match markup.foldlM tokenStep tokenStart with
  | some s =>
    if s.mode = TokenMode.data then some (flushText s.pending s.tokens).reverse else none
  | none => none

/-- An element created by the parser: its depth below the insertion point
(`0` for a child of the container), tag name, `class` attribute and the text
directly inside it. -/
structure FragElement where
  depth : Nat
  tag : String
  classAttr : String
  text : String
  deriving DecidableEq, Repr

/-- An element that is still open: what is known of it, and its finished
descendants in document order. -/
structure Frame where
  el : FragElement
  done : List FragElement
  deriving DecidableEq, Repr

/-- The tree builder while it reads: the stack of open elements, the
innermost first, and the finished children of the container. -/
structure BuildState where
  frames : List Frame
  out : List FragElement
  deriving DecidableEq, Repr

/-- Appends finished elements to the innermost open element, or to the
container when none is open. -/
def attach (els : List FragElement) (frames : List Frame) (out : List FragElement) :
    BuildState :=
  match frames with
  | [] => { frames := [], out := out ++ els }
  | f :: fs => { frames := { f with done := f.done ++ els } :: fs, out := out }

/-- Pops open elements until one with the given tag name has been popped;
`carried` are the popped elements, already finished. -/
def popThrough (tag : String) :
    List Frame → List FragElement → List FragElement → BuildState
  | [], carried, out => { frames := [], out := out ++ carried }
  | f :: fs, carried, out =>
    if f.el.tag = tag then attach (f.el :: (f.done ++ carried)) fs out
    else popThrough tag fs (f.el :: (f.done ++ carried)) out

/-- Pops every open element, at the end of the markup. -/
def popAll : List Frame → List FragElement → List FragElement → List FragElement
  | [], carried, out => out ++ carried
  | f :: fs, carried, out => popAll fs (f.el :: (f.done ++ carried)) out

/-- Opens an element. -/
def pushElement (tag : String) (attrs : List (String × String)) (st : BuildState) :
    BuildState :=
  { st with frames :=
      { el := { depth := st.frames.length, tag := tag,
                classAttr := (attrs.lookup "class").getD "", text := "" },
        done := [] } :: st.frames }

/-- One step of the tree builder, following the rules of the HTML parser
for `div` and `button`: a `button` start tag first closes an open `button`,
an end tag closes every element up to the innermost one of its name and is
ignored when there is none, and text goes into the innermost open element
(text directly inside the container is not kept).  `none` for other tags. -/
def buildStep (st : BuildState) (t : Token) : Option BuildState :=
  match t with
  | Token.startTag name attrs =>
    if name = "div" then some (pushElement name attrs st)
    else if name = "button" then
      if st.frames.any (fun f => f.el.tag = "button") then
        some (pushElement name attrs (popThrough "button" st.frames [] st.out))
      else some (pushElement name attrs st)
    else none
  | Token.endTag name =>
    if name = "div" || name = "button" then
      if st.frames.any (fun f => f.el.tag = name) then
        some (popThrough name st.frames [] st.out)
      else some st
    else none
  | Token.text s =>
    match st.frames with
    | [] => some st
    | f :: fs => some { st with frames := { f with el := { f.el with text := f.el.text ++ s } } :: fs }

/-- The elements that the HTML fragment parser creates from a markup text,
in document order; `none` outside the modelled markup. -/
def parseFragment (markup : String) : Option (List FragElement) :=
  match tokenize markup.toList with
  | none => none
  | some tokens =>
    match tokens.foldlM buildStep { frames := [], out := [] } with
    | none => none
    | some st => some (popAll st.frames [] st.out)

/-! ## Notifications, continued -/

/-- An element inside the notification region: its identity, its depth
below the container (`0` for a child of the container), its tag name, its
`class` attribute and the text directly inside it. -/
structure Element where
  id : Nat
  depth : Nat
  tag : String
  classAttr : String
  text : String
  deriving DecidableEq, Repr

/-- Gives the elements of a fragment their identities, in document order
from `base` on. -/
def withIds : Nat → List FragElement → List Element
  | _, [] => []
  | base, e :: es =>
    { id := base, depth := e.depth, tag := e.tag, classAttr := e.classAttr, text := e.text } ::
      withIds (base + 1) es

/-- Splits a `class` attribute into its tokens (`cur` is the token being
read, reversed). -/
def splitTokens : List Char → List Char → List (List Char)
  | [], cur => if cur.isEmpty then [] else [cur.reverse]
  | c :: cs, cur =>
    if c = ' ' || c = '\t' || c = '\n' || c = '\x0c' || c = '\r' then
      if cur.isEmpty then splitTokens cs [] else cur.reverse :: splitTokens cs []
    else splitTokens cs (c :: cur)

/-- Whether the element matches the selector `.cls`. -/
def hasClass (cls : String) (el : Element) : Bool :=
  (splitTokens el.classAttr.toList []).contains cls.toList

/-- What a pending `setTimeout` callback does when it runs. -/
inductive TimerCallback where
  /-- Callback of `showNotification`: closes `container.querySelector('.alert')`. -/
  | closeFirstAlert
  /-- Callback of the `DOMContentLoaded` handler: closes the alert it captured. -/
  | closeElement (id : Nat)
  deriving DecidableEq, Repr

/-- A pending timer: the time it is due, in milliseconds, and its callback. -/
structure Timer where
  due : Nat
  callback : TimerCallback
  deriving DecidableEq, Repr

/-- Observable effects, in the order they happen. -/
inductive Effect where
  /-- Call `fetch(url, ...)`. -/
  | request (url : String)
  /-- Call `insertAdjacentHTML('afterbegin', alertHtml)`; `id` is the
  identity of the first element it creates. -/
  | inserted (id : Nat)
  /-- Call `location.reload()`. -/
  | reload
  /-- Call `console.error('Error:', error)`. -/
  | consoleError (error : String)
  deriving DecidableEq, Repr

/-- The page as the script sees it.  `container` is the result of
`document.querySelector('.container')`: `none` when the page has no such
element, else the elements inside it, descendants included, in document
order (most recent notification first); an element's descendants are the
elements that follow it with a greater depth.  `now` is the time in
milliseconds. -/
structure Page where
  container : Option (List Element)
  timers : List Timer
  now : Nat
  nextId : Nat
  trace : List Effect
  deriving DecidableEq, Repr

/-- The template literal `alertHtml`. -/
def alertHtml (cls message : String) : String :=
  "\n        <div class=\"alert " ++ cls ++
  " alert-dismissible fade show\" role=\"alert\">\n            " ++ message ++
  "\n            <button type=\"button\" class=\"btn-close\" data-bs-dismiss=\"alert\"></button>\n        </div>\n    "

/-- How a call of the model ends: it returns with a new page, it throws, or
its markup is outside the modelled markup. -/
inductive Outcome where
  | done (page : Page)
  | thrown
  | unmodelled
  deriving DecidableEq, Repr

/-- The function `showNotification(message, type = 'info')`; `type = none`
is an omitted argument.  It throws when building the template literal
throws.  Without a `.container` element nothing is inserted and no timer is
set; otherwise `insertAdjacentHTML` parses the markup, message included, and
puts the elements it creates at the start of the container. -/
def showNotification (fmt : F64 → String) (message : JsValue) (type : Option String)
    (p : Page) : Outcome :=
  let cls := (alertClass (type.getD "info")).render
  match message.toDisplayString fmt with
  | none => Outcome.thrown
  | some text =>
    match p.container with
    | none => Outcome.done p
    | some els =>
      match parseFragment (alertHtml cls text) with
      | none => Outcome.unmodelled
      | some created =>
        Outcome.done { p with
          container := some (withIds p.nextId created ++ els)
          nextId := p.nextId + created.length
          timers := p.timers ++
            [{ due := p.now + 5000, callback := TimerCallback.closeFirstAlert }]
          trace := p.trace ++ [Effect.inserted p.nextId] }

/-- Drops the leading elements that lie deeper than `depth`: the
descendants of an element of that depth that stood before them. -/
def dropDescendants (depth : Nat) : List Element → List Element
  | [] => []
  | el :: els => if depth < el.depth then dropDescendants depth els else el :: els

/-- Removes the element `id` together with its descendants. -/
def removeSubtree (id : Nat) : List Element → List Element
  | [] => []
  | el :: els => if el.id = id then dropDescendants el.depth els else el :: removeSubtree id els

/-- Removal of the element `id` from the region: the end of
`bootstrap.Alert.close()` and of a click on the dismiss button. -/
def removeElement (id : Nat) (p : Page) : Page :=
  { p with container := p.container.map (removeSubtree id) }

/-- The user dismisses the notification `id` with its close button. -/
def manualDismiss (id : Nat) (p : Page) : Page := removeElement id p

/-- Runs one timer callback. -/
def runCallback (cb : TimerCallback) (p : Page) : Page :=
  match cb with
  | TimerCallback.closeFirstAlert =>
    match p.container with
    | none => p
    | some els =>
      match els.find? (hasClass "alert") with
      | some alert => removeElement alert.id p
      | none => p
  | TimerCallback.closeElement id => removeElement id p

/-- Lets the clock reach `t`: the timers due by then run in the order they
were set (all delays are 5000 ms, so that is also the order they are due). -/
def advanceTo (t : Nat) (p : Page) : Page :=
  let due := p.timers.filter (fun tm => tm.due ≤ t)
  let rest := p.timers.filter (fun tm => !(tm.due ≤ t))
  let q := due.foldl (fun acc tm => runCallback tm.callback acc) { p with timers := rest }
  { q with now := max p.now t }

/-- The auto-hide part of the `DOMContentLoaded` handler, for the alerts
inside the region: every `.alert:not(.alert-permanent)` gets a timer that
closes that very element after 5000 ms. -/
def domContentLoaded (p : Page) : Page :=
  match p.container with
  | none => p
  | some els =>
    { p with timers := p.timers ++
        ((els.filter (fun el => hasClass "alert" el && !hasClass "alert-permanent" el)).map
          (fun el => { due := p.now + 5000, callback := TimerCallback.closeElement el.id })) }

/-! ## Status check (`checkInvoiceStatus`) -/

/-- How the `fetch` promise chain starts: the request is rejected, or a
response with an HTTP status arrives whose `response.json()` either yields a
value or is rejected with a parse error. -/
inductive FetchOutcome where
  | rejected (error : String)
  | response (status : Nat) (body : Except String JsValue)

/-- The `.catch` handler: the generic notification, then `console.error`;
`none` when the markup is outside the modelled markup (it never is). -/
def catchHandler (fmt : F64 → String) (error : String) (p : Page) : Option Page :=
  match showNotification fmt (JsValue.string "Error checking status") (some "error") p with
  | Outcome.done q => some { q with trace := q.trace ++ [Effect.consoleError error] }
  | Outcome.thrown => some p
  | Outcome.unmodelled => none

/-- The second `.then` handler, `data => ...`. -/
def dataHandler (fmt : F64 → String) (data : JsValue) (p : Page) : Outcome :=
  match data.getProp "success" with
  | none => Outcome.thrown
  | some success =>
    if success.truthy then
      match showNotification fmt (JsValue.string "Status updated successfully")
          (some "success") p with
      | Outcome.done q => Outcome.done { q with trace := q.trace ++ [Effect.reload] }
      | Outcome.thrown => Outcome.thrown
      | Outcome.unmodelled => Outcome.unmodelled
    else
      match data.getProp "message" with
      | none => Outcome.thrown
      | some message => showNotification fmt message (some "error") p

/-- The function `checkInvoiceStatus(invoiceId)` together with the
settlement of its promise chain for a given outcome of the request; `none`
when the server's message holds markup outside the modelled markup. -/
def checkInvoiceStatus (fmt : F64 → String) (invoiceId : String) (outcome : FetchOutcome)
    (p : Page) : Option Page :=
  let p1 := { p with trace := p.trace ++ [Effect.request ("/invoices/" ++ invoiceId ++ "/status/")] }
  match outcome with
  | FetchOutcome.rejected error => catchHandler fmt error p1
  | FetchOutcome.response _ (Except.error error) => catchHandler fmt error p1
  | FetchOutcome.response _ (Except.ok data) =>
    match dataHandler fmt data p1 with
    | Outcome.done q => some q
    | Outcome.thrown => catchHandler fmt "TypeError" p1
    | Outcome.unmodelled => none

/-- Number of `insertAdjacentHTML` calls in a trace. -/
def insertedCount (tr : List Effect) : Nat :=
  (tr.filter (fun e => match e with | Effect.inserted _ => true | _ => false)).length

/-- Number of `location.reload()` calls in a trace. -/
def reloadCount (tr : List Effect) : Nat := tr.count Effect.reload

/-- Number of `console.error` calls in a trace. -/
def errorLogCount (tr : List Effect) : Nat :=
  (tr.filter (fun e => match e with | Effect.consoleError _ => true | _ => false)).length

/-- Number of `fetch` calls in a trace. -/
def requestCount (tr : List Effect) : Nat :=
  (tr.filter (fun e => match e with | Effect.request _ => true | _ => false)).length

/-- The totals the specification prescribes for quantity `q`, unit price
`p`, VAT rate `v` and discount `d`: `subtotal = q*p - d`,
`vatAmount = subtotal * v/100`, `total = subtotal + vatAmount`, in double
arithmetic. -/
def specTotals (q p v d : F64) : RowTotals :=
  { subtotal := F64.sub (F64.mul q p) d
    vatAmount := F64.mul (F64.sub (F64.mul q p) d) (F64.div v (F64.ofNat 100))
    total := F64.add (F64.sub (F64.mul q p) d)
      (F64.mul (F64.sub (F64.mul q p) d) (F64.div v (F64.ofNat 100))) }

/-- The two elements a notification consists of when its message is plain
text: the alert with the given identity and class, holding the message, and
inside it the dismiss button. -/
def notificationElements (id : Nat) (alertClass message : String) : List Element :=
  [{ id := id, depth := 0, tag := "div",
     classAttr := "alert " ++ alertClass ++ " alert-dismissible fade show",
     text := "\n            " ++ message ++ "\n            \n        " },
   { id := id + 1, depth := 1, tag := "button", classAttr := "btn-close", text := "" }]

/-- Identities of the elements in the region, in document order. -/
def regionIds (p : Page) : List Nat := (p.container.getD []).map Element.id

/-- The alerts in the region, in document order. -/
def alerts (p : Page) : List Element := (p.container.getD []).filter (hasClass "alert")

/-- A page with an empty notification region at time `0`. -/
def emptyRegion : Page :=
  { container := some [], timers := [], now := 0, nextId := 0, trace := [] }

/-- A page whose region holds one pre-rendered alert marked non-expiring. -/
def permanentRegion : Page :=
  { container := some [{ id := 0, depth := 0, tag := "div",
                         classAttr := "alert alert-warning alert-permanent",
                         text := "Certificate expires soon" }],
    timers := [], now := 0, nextId := 1, trace := [] }

/-- A page without a `.container` element. -/
def noRegion : Page :=
  { container := none, timers := [], now := 0, nextId := 0, trace := [] }

/-- The call `showNotification(text)` with a string message and the default
severity (the page is left as it is when the call does not return). -/
def notify (text : String) (p : Page) : Page :=
  match showNotification (fun _ => "") (JsValue.string text) none p with
  | Outcome.done q => q
  | _ => p

/-- Whether a text is plain text to the HTML parser. -/
def isPlainText (s : String) : Bool := s.toList.all isPlainChar
/-! ## Correct rounding

The arithmetic of `F64` is correctly rounded: each operation on finite
non-zero doubles returns the double nearest to the exact result, ties going
to the even significand. -/

namespace F64

theorem bitLengthAux_zero (fuel : Nat) : bitLengthAux fuel 0 = 0 := by
  cases fuel <;> simp [bitLengthAux]

theorem bitLengthAux_spec : ∀ fuel n : Nat, n ≤ fuel → 0 < n →
    2 ^ (bitLengthAux fuel n - 1) ≤ n ∧ n < 2 ^ bitLengthAux fuel n ∧
      0 < bitLengthAux fuel n
  | 0, n, h, hn => by omega
  | fuel + 1, n, h, hn => by
    have hne : n ≠ 0 := by omega
    simp only [bitLengthAux, hne, if_false]
    by_cases h2 : n / 2 = 0
    · have h1 : n = 1 := by omega
      subst h1
      simp [bitLengthAux_zero]
    · obtain ⟨ih1, ih2, ih3⟩ := bitLengthAux_spec fuel (n / 2) (by omega) (by omega)
      generalize bitLengthAux fuel (n / 2) = L at ih1 ih2 ih3
      refine ⟨?_, ?_, by omega⟩
      · have hp : 2 ^ L = 2 * 2 ^ (L - 1) := by
          rw [← pow_succ']; congr 1; omega
        simp only [Nat.add_sub_cancel]; omega
      · rw [pow_succ]; omega

theorem bitLength_spec (n : Nat) (hn : 0 < n) :
    2 ^ (bitLength n - 1) ≤ n ∧ n < 2 ^ bitLength n ∧ 0 < bitLength n :=
  bitLengthAux_spec n n le_rfl hn

/-- Dropping the low `sh` bits of `M` with round-to-nearest, ties-to-even,
leaves an error of at most half a unit, and an even result on a tie. -/
theorem round_core (M sh : Nat) (hsh : 0 < sh) (m1 : Nat)
    (hm1 : m1 = if (decide (2 ^ (sh - 1) < M % 2 ^ sh) ||
      (decide (M % 2 ^ sh = 2 ^ (sh - 1)) && decide (M / 2 ^ sh % 2 = 1))) = true
      then M / 2 ^ sh + 1 else M / 2 ^ sh) :
    2 * |(m1 : ℤ) * 2 ^ sh - M| ≤ 2 ^ sh ∧
    (2 * |(m1 : ℤ) * 2 ^ sh - M| = 2 ^ sh → m1 % 2 = 0) ∧
    M / 2 ^ sh ≤ m1 ∧ m1 ≤ M / 2 ^ sh + 1 ∧
    (m1 = 0 → 2 * M ≤ 2 ^ sh) := by
  have hP : 2 ^ sh = 2 * 2 ^ (sh - 1) := by
    rw [← pow_succ']; congr 1; omega
  have hdm := Nat.div_add_mod M (2 ^ sh)
  have hr := Nat.mod_lt M (show 0 < 2 ^ sh by positivity)
  generalize 2 ^ (sh - 1) = H at *
  generalize M % 2 ^ sh = r at *
  generalize M / 2 ^ sh = q at *
  have hPz : ((2 : ℤ) ^ sh) = ((2 ^ sh : ℕ) : ℤ) := by push_cast; rfl
  rw [hPz]
  generalize 2 ^ sh = P at *
  subst hP
  have hMz : (M : ℤ) = 2 * H * q + r := by rw [← hdm]; push_cast; ring
  split_ifs at hm1 with hup
  · simp only [Bool.or_eq_true, Bool.and_eq_true, decide_eq_true_eq] at hup
    subst hm1
    have e1 : ((q + 1 : ℕ) : ℤ) * ((2 * H : ℕ) : ℤ) - M = 2 * H - r := by
      rw [hMz]; push_cast; ring
    rw [e1]
    have hnn : (0 : ℤ) ≤ 2 * H - r := by omega
    rw [abs_of_nonneg hnn]
    refine ⟨by push_cast; omega, ?_, by omega, by omega, by omega⟩
    intro h
    push_cast at h
    have : r = H := by omega
    rcases hup with h1 | ⟨_, h2⟩
    · omega
    · omega
  · simp only [Bool.or_eq_true, Bool.and_eq_true, decide_eq_true_eq, not_or, not_and] at hup
    rw [hm1]
    have e1 : ((q : ℕ) : ℤ) * ((2 * H : ℕ) : ℤ) - M = -r := by
      rw [hMz]; push_cast; ring
    rw [e1, abs_neg, abs_of_nonneg (by omega : (0 : ℤ) ≤ r)]
    refine ⟨by push_cast; omega, ?_, by omega, by omega, ?_⟩
    · intro h
      push_cast at h
      have : r = H := by omega
      have := hup.2 this
      omega
    · intro hq
      rw [hq] at hdm
      omega


theorem two_zpow_succ (a : ℤ) : (2 : ℚ) ^ (a + 1) = 2 * 2 ^ a := by
  rw [zpow_add_one₀ (by norm_num : (2 : ℚ) ≠ 0)]; ring

theorem pack_isRounding (neg : Bool) (m : Nat) (qe : ℤ) (x : ℚ) (hx : 0 < x)
    (hm : m ≤ 2 ^ 53) (hqe : -1074 ≤ qe)
    (hnorm : qe = -1074 ∨ (2 ^ 52 ≤ m ∧ (2 : ℚ) ^ (qe + 52) ≤ x))
    (herr : |(m : ℚ) * 2 ^ qe - x| ≤ 2 ^ qe / 2)
    (htie : |(m : ℚ) * 2 ^ qe - x| = 2 ^ qe / 2 → m % 2 = 0) :
    IsRounding neg x (pack neg m qe) := by
  have hpos : (0 : ℚ) < 2 ^ qe := by positivity
  unfold pack
  by_cases hm0 : m = 0
  · rw [if_pos hm0]
    subst hm0
    have hq : qe = -1074 := by
      rcases hnorm with h | ⟨h, _⟩
      · exact h
      · norm_num at h
    subst hq
    refine ⟨rfl, ?_⟩
    simp only [Nat.cast_zero, zero_mul, zero_sub, abs_neg, abs_of_pos hx] at herr
    have h2 : (2 : ℚ) ^ (-1074 : ℤ) / 2 = 2 ^ (-1075 : ℤ) := by
      rw [show (-1074 : ℤ) = -1075 + 1 by norm_num, two_zpow_succ]; ring
    rw [← h2]; exact herr
  · rw [if_neg hm0]
    simp only []
    by_cases h53 : m = 2 ^ 53
    · simp only [h53, if_true]
      subst h53
      by_cases hov : qe + 1 > 971
      · rw [if_pos hov]
        refine ⟨rfl, ?_⟩
        have hx1 : ((2 ^ 53 : ℕ) : ℚ) * 2 ^ qe - 2 ^ qe / 2 ≤ x := by
          have := (abs_le.mp herr).2
          linarith
        have hmono : (2 : ℚ) ^ (971 : ℤ) ≤ 2 ^ qe :=
          zpow_le_zpow_right₀ (by norm_num) (by omega)
        have e1 : (2 : ℚ) ^ (1024 : ℤ) - 2 ^ (970 : ℤ) =
            (((2 ^ 53 : ℕ) : ℚ) - 1 / 2) * 2 ^ (971 : ℤ) := by norm_num
        rw [e1]
        have h3 : (0 : ℚ) ≤ ((2 ^ 53 : ℕ) : ℚ) - 1 / 2 := by norm_num
        nlinarith
      · rw [if_neg hov]
        have e2 : ((2 ^ 52 : ℕ) : ℚ) * 2 ^ (qe + 1) = ((2 ^ 53 : ℕ) : ℚ) * 2 ^ qe := by
          rw [two_zpow_succ]; push_cast; ring
        refine ⟨rfl, by norm_num, by norm_num, by omega, by omega, Or.inl le_rfl, ?_, ?_⟩
        · rw [e2, two_zpow_succ]; linarith
        · intro _; norm_num
    · simp only [h53, if_false]
      have hlt : m < 2 ^ 53 := lt_of_le_of_ne hm h53
      by_cases hov : qe > 971
      · rw [if_pos hov]
        refine ⟨rfl, ?_⟩
        rcases hnorm with h | ⟨_, h⟩
        · omega
        · have hmono : (2 : ℚ) ^ (1024 : ℤ) ≤ 2 ^ (qe + 52) :=
            zpow_le_zpow_right₀ (by norm_num) (by omega)
          have : (0 : ℚ) < 2 ^ (970 : ℤ) := by positivity
          linarith
      · rw [if_neg hov]
        refine ⟨rfl, Nat.pos_of_ne_zero hm0, hlt, hqe, by omega, ?_, herr, htie⟩
        rcases hnorm with h | ⟨h, _⟩
        · exact Or.inr h
        · exact Or.inl h


theorem two_zpow_add_nat (a : ℤ) (n : ℕ) : (2 : ℚ) ^ (a + n) = 2 ^ a * ((2 ^ n : ℕ) : ℚ) := by
  rw [zpow_add₀ (by norm_num : (2 : ℚ) ≠ 0), zpow_natCast]; push_cast; ring

/-- The function `roundDyadic` rounds correctly. -/
theorem roundDyadic_isRounding (neg : Bool) (M : Nat) (E : ℤ) (hM : 0 < M) :
    IsRounding neg ((M : ℚ) * 2 ^ E) (roundDyadic neg M E) := by
  unfold roundDyadic
  rw [if_neg hM.ne']
  simp only []
  obtain ⟨hL1, hL2, hL3⟩ := bitLength_spec M hM
  generalize bitLength M = L at *
  have hMq : (0 : ℚ) < M := by exact_mod_cast hM
  have hE : (0 : ℚ) < 2 ^ E := by positivity
  have hx : (0 : ℚ) < (M : ℚ) * 2 ^ E := by positivity
  generalize hqe : max (E + (L : ℤ) - 1 - 52) (-1074) = qe
  have hqe1 : -1074 ≤ qe := by rw [← hqe]; exact le_max_right _ _
  have hqe2 : E + (L : ℤ) - 53 ≤ qe := by
    rw [← hqe]; exact le_trans (by omega) (le_max_left _ _)
  have hqe3 : qe = -1074 ∨ qe = E + (L : ℤ) - 53 := by
    rw [← hqe]; rcases max_choice (E + (L : ℤ) - 1 - 52) (-1074) with h | h
    · right; rw [h]; ring
    · left; exact h
  -- in the normal range the magnitude is at least `2 ^ (qe + 52)`
  have hbig : qe = E + (L : ℤ) - 53 → (2 : ℚ) ^ (qe + 52) ≤ (M : ℚ) * 2 ^ E := by
    intro h
    have e1 : qe + 52 = E + ((L - 1 : ℕ) : ℤ) := by
      rw [h]; push_cast [Nat.cast_sub (show 1 ≤ L by omega)]; ring
    rw [e1, two_zpow_add_nat, mul_comm]
    have : ((2 ^ (L - 1) : ℕ) : ℚ) ≤ (M : ℚ) := by exact_mod_cast hL1
    nlinarith
  by_cases hle : qe ≤ E
  · rw [if_pos hle]
    obtain ⟨d, hd⟩ : ∃ d : ℕ, (d : ℤ) = E - qe := ⟨(E - qe).toNat, by omega⟩
    have hdn : (E - qe).toNat = d := by omega
    rw [hdn]
    have hLd : L + d ≤ 53 := by omega
    have hval : ((M * 2 ^ d : ℕ) : ℚ) * 2 ^ qe = (M : ℚ) * 2 ^ E := by
      have : E = qe + d := by omega
      rw [this, two_zpow_add_nat]; push_cast; ring
    have hqpos : (0 : ℚ) < 2 ^ qe := by positivity
    apply pack_isRounding neg _ qe _ hx
    · calc M * 2 ^ d ≤ 2 ^ L * 2 ^ d := Nat.mul_le_mul_right _ hL2.le
        _ = 2 ^ (L + d) := (pow_add 2 L d).symm
        _ ≤ 2 ^ 53 := Nat.pow_le_pow_right (by norm_num) hLd
    · exact hqe1
    · rcases hqe3 with h | h
      · exact Or.inl h
      · right
        refine ⟨?_, hbig h⟩
        have hd2 : (L - 1) + d = 52 := by omega
        calc 2 ^ 52 = 2 ^ (L - 1) * 2 ^ d := by rw [← pow_add, hd2]
          _ ≤ M * 2 ^ d := Nat.mul_le_mul_right _ hL1
    · rw [hval, sub_self, abs_zero]; positivity
    · rw [hval, sub_self, abs_zero]
      intro h; exfalso; linarith
  · rw [if_neg hle]
    obtain ⟨sh, hsh⟩ : ∃ sh : ℕ, (sh : ℤ) = qe - E := ⟨(qe - E).toNat, by omega⟩
    have hshn : (qe - E).toNat = sh := by omega
    rw [hshn]
    have hshpos : 0 < sh := by omega
    obtain ⟨hc1, hc2, hc3, hc4, hc5⟩ := round_core M sh hshpos _ rfl
    generalize hm1 : (if (decide (2 ^ (sh - 1) < M % 2 ^ sh) ||
      (decide (M % 2 ^ sh = 2 ^ (sh - 1)) && decide (M / 2 ^ sh % 2 = 1))) = true
      then M / 2 ^ sh + 1 else M / 2 ^ sh) = m1 at hc1 hc2 hc3 hc4 hc5
    have hqeE : (2 : ℚ) ^ qe = 2 ^ E * ((2 ^ sh : ℕ) : ℚ) := by
      have : qe = E + sh := by omega
      rw [this, two_zpow_add_nat]
    have hdiff : (m1 : ℚ) * 2 ^ qe - (M : ℚ) * 2 ^ E =
        (((m1 : ℤ) * 2 ^ sh - M : ℤ) : ℚ) * 2 ^ E := by
      rw [hqeE]; push_cast; ring
    have habs : |(m1 : ℚ) * 2 ^ qe - (M : ℚ) * 2 ^ E| =
        ((|(m1 : ℤ) * 2 ^ sh - M| : ℤ) : ℚ) * 2 ^ E := by
      rw [hdiff, abs_mul, abs_of_pos hE, Int.cast_abs]
    have hLsh : L ≤ sh + 53 := by omega
    have hmq : M / 2 ^ sh < 2 ^ 53 := by
      apply Nat.div_lt_of_lt_mul
      calc M < 2 ^ L := hL2
        _ ≤ 2 ^ (sh + 53) := Nat.pow_le_pow_right (by norm_num) hLsh
        _ = 2 ^ sh * 2 ^ 53 := pow_add 2 sh 53
    apply pack_isRounding neg m1 qe _ hx
    · omega
    · exact hqe1
    · rcases hqe3 with h | h
      · exact Or.inl h
      · right
        refine ⟨?_, hbig h⟩
        have hL' : L - 1 = 52 + sh := by omega
        have : 2 ^ 52 ≤ M / 2 ^ sh := by
          rw [Nat.le_div_iff_mul_le (by positivity)]
          calc 2 ^ 52 * 2 ^ sh = 2 ^ (L - 1) := by rw [← pow_add, hL']
            _ ≤ M := hL1
        omega
    · rw [habs, hqeE]
      have h1 : ((2 * |(m1 : ℤ) * 2 ^ sh - M| : ℤ) : ℚ) ≤ ((2 ^ sh : ℤ) : ℚ) := by
        exact_mod_cast hc1
      push_cast at h1 ⊢
      nlinarith
    · intro htie
      apply hc2
      rw [habs, hqeE] at htie
      have h2 : ((2 * |(m1 : ℤ) * 2 ^ sh - M| : ℤ) : ℚ) = ((2 ^ sh : ℤ) : ℚ) := by
        push_cast at htie ⊢
        have hne : (2 : ℚ) ^ E ≠ 0 := hE.ne'
        field_simp at htie
        apply mul_left_cancel₀ hne
        rw [← htie]; ring
      exact_mod_cast h2


/-- Rounding an odd `M` that stands for a magnitude `t` strictly between
`M - 1` and `M + 1` (the low bit of `M` is a sticky bit): when at least two
bits are dropped, the result is within less than half a unit of `t`. -/
theorem round_core_sticky (M sh : Nat) (hsh : 2 ≤ sh) (hodd : M % 2 = 1) (t : ℚ)
    (ht : |t - M| < 1) (m1 : Nat)
    (hm1 : m1 = if (decide (2 ^ (sh - 1) < M % 2 ^ sh) ||
      (decide (M % 2 ^ sh = 2 ^ (sh - 1)) && decide (M / 2 ^ sh % 2 = 1))) = true
      then M / 2 ^ sh + 1 else M / 2 ^ sh) :
    |(m1 : ℚ) * ((2 ^ sh : ℕ) : ℚ) - t| < ((2 ^ sh : ℕ) : ℚ) / 2 ∧
    M / 2 ^ sh ≤ m1 ∧ m1 ≤ M / 2 ^ sh + 1 := by
  obtain ⟨hc1, -, hc3, hc4, -⟩ := round_core M sh (by omega) m1 hm1
  refine ⟨?_, hc3, hc4⟩
  have hP : 2 ^ sh = 4 * 2 ^ (sh - 2) := by
    have : sh = (sh - 2) + 2 := by omega
    conv_lhs => rw [this, pow_add]
    ring
  have hPz : ((2 : ℤ) ^ sh) = 4 * ((2 ^ (sh - 2) : ℕ) : ℤ) := by
    have := congrArg (fun n : ℕ => (n : ℤ)) hP
    push_cast at this ⊢
    exact this
  rw [hPz] at hc1
  rw [hP]
  generalize 2 ^ (sh - 2) = H at *
  have hz : |(m1 : ℤ) * (4 * (H : ℤ)) - M| + 1 ≤ 2 * H := by
    have e : (m1 : ℤ) * (4 * (H : ℤ)) = 4 * ((m1 : ℤ) * H) := by ring
    rw [e] at hc1 ⊢
    generalize (m1 : ℤ) * (H : ℤ) = Y at *
    rcases abs_cases (4 * Y - (M : ℤ)) with ⟨h, _⟩ | ⟨h, _⟩ <;> rw [h] at hc1 ⊢ <;> omega
  have hzq : |(m1 : ℚ) * (4 * (H : ℚ)) - M| + 1 ≤ 2 * H := by
    have := (Int.cast_le (R := ℚ)).mpr hz
    push_cast at this
    exact this
  have htri : |(m1 : ℚ) * (4 * (H : ℚ)) - t| ≤
      |(m1 : ℚ) * (4 * (H : ℚ)) - M| + |(M : ℚ) - t| := by
    have := abs_add ((m1 : ℚ) * (4 * (H : ℚ)) - M) ((M : ℚ) - t)
    simpa using this
  rw [abs_sub_comm] at ht
  push_cast
  linarith

/-- The function `roundDyadic` also rounds correctly when the low bit of an
odd `M` of at least 56 bits is a sticky bit for a magnitude `t * 2 ^ E`
with `M - 1 < t < M + 1`. -/
theorem roundDyadic_isRounding_sticky (neg : Bool) (M : Nat) (E : ℤ) (t : ℚ)
    (hM : 2 ^ 55 ≤ M) (hodd : M % 2 = 1) (ht : |t - M| < 1) :
    IsRounding neg (t * 2 ^ E) (roundDyadic neg M E) := by
  have hMpos : 0 < M := lt_of_lt_of_le (by norm_num) hM
  unfold roundDyadic
  rw [if_neg hMpos.ne']
  simp only []
  obtain ⟨hL1, hL2, hL3⟩ := bitLength_spec M hMpos
  generalize bitLength M = L at *
  have hL56 : 56 ≤ L := by
    by_contra hcon
    have : 2 ^ L ≤ 2 ^ 55 := Nat.pow_le_pow_right (by norm_num) (by omega)
    omega
  have hE : (0 : ℚ) < 2 ^ E := by positivity
  have hMt : (M : ℚ) - 1 < t := by have := (abs_lt.mp ht).1; linarith
  have hM1 : (1 : ℚ) ≤ M := by exact_mod_cast hMpos
  have ht0 : (0 : ℚ) < t := by linarith
  have hx : (0 : ℚ) < t * 2 ^ E := by positivity
  generalize hqe : max (E + (L : ℤ) - 1 - 52) (-1074) = qe
  have hqe1 : -1074 ≤ qe := by rw [← hqe]; exact le_max_right _ _
  have hqe2 : E + (L : ℤ) - 53 ≤ qe := by
    rw [← hqe]; exact le_trans (by omega) (le_max_left _ _)
  have hqe3 : qe = -1074 ∨ qe = E + (L : ℤ) - 53 := by
    rw [← hqe]; rcases max_choice (E + (L : ℤ) - 1 - 52) (-1074) with h | h
    · right; rw [h]; ring
    · left; exact h
  have hpow : 2 ^ (L - 1) + 1 ≤ M := by
    have : 2 ^ (L - 1) = 2 * 2 ^ (L - 2) := by
      rw [← pow_succ']; congr 1; omega
    omega
  have hbig : qe = E + (L : ℤ) - 53 → (2 : ℚ) ^ (qe + 52) ≤ t * 2 ^ E := by
    intro h
    have e1 : qe + 52 = E + ((L - 1 : ℕ) : ℤ) := by
      rw [h]; push_cast [Nat.cast_sub (show 1 ≤ L by omega)]; ring
    rw [e1, two_zpow_add_nat, mul_comm]
    have h2 : ((2 ^ (L - 1) + 1 : ℕ) : ℚ) ≤ (M : ℚ) := by exact_mod_cast hpow
    push_cast at h2
    have h3 : ((2 ^ (L - 1) : ℕ) : ℚ) ≤ t := by push_cast; linarith
    exact mul_le_mul_of_nonneg_right h3 hE.le
  have hle : ¬ qe ≤ E := by omega
  rw [if_neg hle]
  obtain ⟨sh, hsh⟩ : ∃ sh : ℕ, (sh : ℤ) = qe - E := ⟨(qe - E).toNat, by omega⟩
  have hshn : (qe - E).toNat = sh := by omega
  rw [hshn]
  have hsh2 : 2 ≤ sh := by omega
  obtain ⟨hc1, hc3, hc4⟩ := round_core_sticky M sh hsh2 hodd t ht _ rfl
  generalize hm1 : (if (decide (2 ^ (sh - 1) < M % 2 ^ sh) ||
    (decide (M % 2 ^ sh = 2 ^ (sh - 1)) && decide (M / 2 ^ sh % 2 = 1))) = true
    then M / 2 ^ sh + 1 else M / 2 ^ sh) = m1 at hc1 hc3 hc4
  have hqeE : (2 : ℚ) ^ qe = 2 ^ E * ((2 ^ sh : ℕ) : ℚ) := by
    have : qe = E + sh := by omega
    rw [this, two_zpow_add_nat]
  have habs : |(m1 : ℚ) * 2 ^ qe - t * 2 ^ E| =
      |(m1 : ℚ) * ((2 ^ sh : ℕ) : ℚ) - t| * 2 ^ E := by
    rw [hqeE, ← abs_of_pos hE, ← abs_mul, abs_of_pos hE]
    congr 1; ring
  have hLsh : L ≤ sh + 53 := by omega
  have hmq : M / 2 ^ sh < 2 ^ 53 := by
    apply Nat.div_lt_of_lt_mul
    calc M < 2 ^ L := hL2
      _ ≤ 2 ^ (sh + 53) := Nat.pow_le_pow_right (by norm_num) hLsh
      _ = 2 ^ sh * 2 ^ 53 := pow_add 2 sh 53
  have hstrict : |(m1 : ℚ) * 2 ^ qe - t * 2 ^ E| < 2 ^ qe / 2 := by
    rw [habs, hqeE]
    have := mul_lt_mul_of_pos_right hc1 hE
    linarith
  apply pack_isRounding neg m1 qe _ hx
  · omega
  · exact hqe1
  · rcases hqe3 with h | h
    · exact Or.inl h
    · right
      refine ⟨?_, hbig h⟩
      have hL' : L - 1 = 52 + sh := by omega
      have : 2 ^ 52 ≤ M / 2 ^ sh := by
        rw [Nat.le_div_iff_mul_le (by positivity)]
        calc 2 ^ 52 * 2 ^ sh = 2 ^ (L - 1) := by rw [← pow_add, hL']
          _ ≤ M := hL1
      omega
  · exact hstrict.le
  · intro htie; exfalso; linarith

/-- The function `roundQuot` rounds the quotient correctly. -/
theorem roundQuot_isRounding (neg : Bool) (num den : Nat) (E : ℤ) (hnum : 0 < num)
    (hden : 0 < den) :
    IsRounding neg ((num : ℚ) / den * 2 ^ E) (roundQuot neg num den E) := by
  unfold roundQuot
  simp only []
  obtain ⟨-, hb2, -⟩ := bitLength_spec den hden
  generalize bitLength den = b at *
  have hdq : (0 : ℚ) < den := by exact_mod_cast hden
  have hdm := Nat.div_add_mod (num * 2 ^ (64 + b)) den
  have hr := Nat.mod_lt (num * 2 ^ (64 + b)) hden
  have hq64 : 2 ^ 64 ≤ num * 2 ^ (64 + b) / den := by
    rw [Nat.le_div_iff_mul_le hden]
    calc 2 ^ 64 * den ≤ 2 ^ 64 * 2 ^ b := Nat.mul_le_mul_left _ hb2.le
      _ = 2 ^ (64 + b) := (pow_add 2 64 b).symm
      _ ≤ num * 2 ^ (64 + b) := Nat.le_mul_of_pos_left _ hnum
  generalize num * 2 ^ (64 + b) / den = q at *
  generalize hrr : num * 2 ^ (64 + b) % den = r at *
  have hN : (num : ℚ) * ((2 ^ (64 + b) : ℕ) : ℚ) = den * q + r := by
    have := congrArg (fun n : ℕ => (n : ℚ)) hdm
    push_cast at this ⊢
    linarith
  have hsplit : (2 : ℚ) ^ E =
      2 ^ (E - ((64 + b : ℕ) : ℤ) - 1) * (2 * ((2 ^ (64 + b) : ℕ) : ℚ)) := by
    have : E = (E - ((64 + b : ℕ) : ℤ) - 1) + ((64 + b + 1 : ℕ) : ℤ) := by
      push_cast; ring
    conv_lhs => rw [this, two_zpow_add_nat]
    push_cast; ring
  have hval : (num : ℚ) / den * 2 ^ E =
      (2 * (q : ℚ) + 2 * r / den) * 2 ^ (E - ((64 + b : ℕ) : ℤ) - 1) := by
    rw [hsplit]
    generalize ((2 ^ (64 + b) : ℕ) : ℚ) = P at hN ⊢
    generalize (2 : ℚ) ^ (E - ((64 + b : ℕ) : ℤ) - 1) = Z
    field_simp
    linear_combination (2 : ℚ) * Z * hN
  rw [hval]
  by_cases hr0 : r = 0
  · rw [if_pos hr0]
    subst hr0
    have := roundDyadic_isRounding neg (2 * q + 0) (E - ((64 + b : ℕ) : ℤ) - 1) (by omega)
    simpa using this
  · rw [if_neg hr0]
    have hrq : (0 : ℚ) < r := by exact_mod_cast Nat.pos_of_ne_zero hr0
    have hrd : (r : ℚ) < den := by exact_mod_cast hr
    apply roundDyadic_isRounding_sticky
    · omega
    · omega
    · have h1 : 2 * (r : ℚ) / den < 2 := by
        rw [div_lt_iff₀ hdq]; linarith
      have h2 : 0 < 2 * (r : ℚ) / den := by positivity
      rw [abs_lt]; push_cast
      constructor <;> linarith


/-- Multiplication of finite non-zero doubles returns the correctly rounded
exact product. -/
theorem mul_isRounding (s t : Bool) (m n : Nat) (e f : ℤ) (hm : 0 < m) (hn : 0 < n) :
    IsRounding (s != t) (((m : ℚ) * 2 ^ e) * ((n : ℚ) * 2 ^ f))
      (mul (fin s m e) (fin t n f)) := by
  have h := roundDyadic_isRounding (s != t) (m * n) (e + f) (Nat.mul_pos hm hn)
  have hv : ((m * n : ℕ) : ℚ) * 2 ^ (e + f) = ((m : ℚ) * 2 ^ e) * ((n : ℚ) * 2 ^ f) := by
    rw [zpow_add₀ (by norm_num : (2 : ℚ) ≠ 0)]; push_cast; ring
  rw [hv] at h
  exact h

/-- Division of finite non-zero doubles returns the correctly rounded exact
quotient. -/
theorem div_isRounding (s t : Bool) (m n : Nat) (e f : ℤ) (hm : 0 < m) (hn : 0 < n) :
    IsRounding (s != t) (((m : ℚ) * 2 ^ e) / ((n : ℚ) * 2 ^ f))
      (div (fin s m e) (fin t n f)) := by
  have h := roundQuot_isRounding (s != t) m n (e - f) hm hn
  have hv : (m : ℚ) / n * 2 ^ (e - f) = ((m : ℚ) * 2 ^ e) / ((n : ℚ) * 2 ^ f) := by
    rw [zpow_sub₀ (by norm_num : (2 : ℚ) ≠ 0)]
    have hn' : (n : ℚ) ≠ 0 := by exact_mod_cast hn.ne'
    have hf : (2 : ℚ) ^ f ≠ 0 := by positivity
    field_simp
  rw [hv] at h
  exact h

theorem signed_cast (s : Bool) (m : Nat) :
    ((signed s m : ℤ) : ℚ) = (if s then -1 else 1) * (m : ℚ) := by
  cases s <;> simp [signed]

/-- Addition of finite non-zero doubles returns `+0` when the exact sum is
zero, and the correctly rounded exact sum otherwise. -/
theorem add_isRounding (s t : Bool) (m n : Nat) (e f : ℤ) :
    ((if s then -1 else 1) * (m : ℚ) * 2 ^ e + (if t then -1 else 1) * (n : ℚ) * 2 ^ f = 0 →
      add (fin s m e) (fin t n f) = zero false) ∧
    ((if s then -1 else 1) * (m : ℚ) * 2 ^ e + (if t then -1 else 1) * (n : ℚ) * 2 ^ f ≠ 0 →
      IsRounding
        (decide ((if s then -1 else 1) * (m : ℚ) * 2 ^ e +
          (if t then -1 else 1) * (n : ℚ) * 2 ^ f < 0))
        |(if s then -1 else 1) * (m : ℚ) * 2 ^ e + (if t then -1 else 1) * (n : ℚ) * 2 ^ f|
        (add (fin s m e) (fin t n f))) := by
  simp only [add]
  generalize hg : min e f = g
  have hge : g ≤ e := by rw [← hg]; exact min_le_left _ _
  have hgf : g ≤ f := by rw [← hg]; exact min_le_right _ _
  obtain ⟨a, ha⟩ : ∃ a : ℕ, (a : ℤ) = e - g := ⟨(e - g).toNat, by omega⟩
  obtain ⟨b, hb⟩ : ∃ b : ℕ, (b : ℤ) = f - g := ⟨(f - g).toNat, by omega⟩
  have han : (e - g).toNat = a := by omega
  have hbn : (f - g).toNat = b := by omega
  rw [han, hbn]
  have hgpos : (0 : ℚ) < 2 ^ g := by positivity
  have hval : ((signed s (m * 2 ^ a) + signed t (n * 2 ^ b) : ℤ) : ℚ) * 2 ^ g =
      (if s then -1 else 1) * (m : ℚ) * 2 ^ e + (if t then -1 else 1) * (n : ℚ) * 2 ^ f := by
    have he : e = g + a := by omega
    have hf : f = g + b := by omega
    rw [he, hf, two_zpow_add_nat, two_zpow_add_nat]
    push_cast [signed_cast]
    ring
  rw [← hval]
  generalize signed s (m * 2 ^ a) + signed t (n * 2 ^ b) = sum
  constructor
  · intro h0
    have : sum = 0 := by
      rcases mul_eq_zero.mp h0 with h | h
      · exact_mod_cast h
      · exact absurd h hgpos.ne'
    rw [if_pos this]
  · intro hne
    have hs : sum ≠ 0 := by
      rintro rfl; simp at hne
    rw [if_neg hs]
    have habs : |(sum : ℚ) * 2 ^ g| = ((sum.natAbs : ℕ) : ℚ) * 2 ^ g := by
      rw [abs_mul, abs_of_pos hgpos, Nat.cast_natAbs, Int.cast_abs]
    have hneg : decide ((sum : ℚ) * 2 ^ g < 0) = decide (sum < 0) := by
      congr 1
      rw [eq_iff_iff, mul_neg_iff]
      constructor
      · rintro (⟨_, h⟩ | ⟨h, _⟩)
        · exact absurd h (not_lt.mpr hgpos.le)
        · exact_mod_cast h
      · intro h; right; exact ⟨by exact_mod_cast h, hgpos⟩
    rw [habs, hneg]
    exact roundDyadic_isRounding _ _ _ (Int.natAbs_pos.mpr hs)

end F64

/-- The conversion of a decimal literal returns the correctly rounded value
of `D * 10 ^ p`. -/
theorem decimalValue_isRounding (neg : Bool) (D : Nat) (p : ℤ) (hD : 0 < D) :
    F64.IsRounding neg ((D : ℚ) * 10 ^ p) (decimalValue neg D p) := by
  unfold decimalValue
  rw [if_neg hD.ne']
  by_cases hp : 0 ≤ p
  · rw [if_pos hp]
    obtain ⟨k, hk⟩ : ∃ k : ℕ, (k : ℤ) = p := ⟨p.toNat, by omega⟩
    have hkn : p.toNat = k := by omega
    rw [hkn]
    have h := F64.roundDyadic_isRounding neg (D * 10 ^ k) 0 (by positivity)
    have hv : ((D * 10 ^ k : ℕ) : ℚ) * 2 ^ (0 : ℤ) = (D : ℚ) * 10 ^ p := by
      rw [← hk, zpow_natCast]; push_cast; ring
    rw [hv] at h
    exact h
  · rw [if_neg hp]
    obtain ⟨k, hk⟩ : ∃ k : ℕ, (k : ℤ) = -p := ⟨(-p).toNat, by omega⟩
    have hkn : (-p).toNat = k := by omega
    rw [hkn]
    have h := F64.roundQuot_isRounding neg D (10 ^ k) 0 hD (by positivity)
    have hv : (D : ℚ) / ((10 ^ k : ℕ) : ℚ) * 2 ^ (0 : ℤ) = (D : ℚ) * 10 ^ p := by
      have : p = -(k : ℤ) := by omega
      rw [this, zpow_neg, zpow_natCast]; push_cast; ring
    rw [hv] at h
    exact h

/-! ## The double arithmetic on well-known values -/

set_option maxRecDepth 100000

/-- The arithmetic of `F64` reproduces the well-known results of
JavaScript's double arithmetic: inexact sums and products, ties to even at
`2^53`, overflow to `Infinity`, underflow to `0` and to subnormal numbers,
and the invalid operations that give `NaN`. -/
theorem F64_known_values :
    F64.add (parseFloat "0.1") (parseFloat "0.2") = parseFloat "0.30000000000000004" ∧
    F64.add (parseFloat "0.1") (parseFloat "0.7") = parseFloat "0.7999999999999999" ∧
    F64.sub (parseFloat "0.3") (parseFloat "0.1") = parseFloat "0.19999999999999998" ∧
    F64.mul (parseFloat "4.35") (parseFloat "100") = parseFloat "434.99999999999994" ∧
    F64.mul (parseFloat "1.1") (parseFloat "1.1") = parseFloat "1.2100000000000002" ∧
    F64.mul (parseFloat "1.005") (parseFloat "1000") = parseFloat "1004.9999999999999" ∧
    F64.div (parseFloat "1") (parseFloat "3") = parseFloat "0.3333333333333333" ∧
    F64.div (parseFloat "100") (parseFloat "3") = parseFloat "33.333333333333336" ∧
    F64.add (parseFloat "9007199254740992") (parseFloat "1") =
      parseFloat "9007199254740992" ∧
    F64.mul (parseFloat "1e308") (parseFloat "10") = F64.inf false ∧
    F64.add (parseFloat "1.7976931348623157e308") (parseFloat "1e292") = F64.inf false ∧
    F64.div (parseFloat "5e-324") (parseFloat "2") = F64.zero false ∧
    F64.div (parseFloat "2.2250738585072014e-308") (parseFloat "3") =
      parseFloat "7.41691286169067e-309" ∧
    F64.div (parseFloat "1") (parseFloat "0") = F64.inf false ∧
    F64.div (parseFloat "-1") (parseFloat "0") = F64.inf true ∧
    F64.div (parseFloat "0") (parseFloat "0") = F64.nan ∧
    F64.sub (parseFloat "Infinity") (parseFloat "Infinity") = F64.nan ∧
    F64.mul (parseFloat "Infinity") (parseFloat "0") = F64.nan := by
  decide

/-- The function `parseFloat` reads the longest numeric prefix and gives
`NaN` only when there is none. -/
theorem parseFloat_known_values :
    parseFloat "12abc" = parseFloat "12" ∧
    parseFloat "  3.50 " = parseFloat "3.5" ∧
    parseFloat "1e3" = parseFloat "1000" ∧
    parseFloat ".5" = parseFloat "0.5" ∧
    parseFloat "-0" = F64.zero true ∧
    parseFloat "" = F64.nan ∧
    parseFloat "abc" = F64.nan ∧
    parseFloat "." = F64.nan ∧
    parseFloat "1e400" = F64.inf false ∧
    parseFloat "1e-400" = F64.zero false := by
  decide

/-! ## Properties of the row calculation -/

theorem orZero_of_isNonNegative (x : F64) (h : isNonNegative x = true) : orZero x = x := by
  cases x with
  | nan => simp [isNonNegative] at h
  | inf s => simp [orZero, F64.truthy]
  | zero s => cases s <;> simp_all [isNonNegative, orZero, F64.truthy]
  | fin s m e => simp [orZero, F64.truthy]

theorem orZero_nan : orZero F64.nan = F64.zero false := by
  simp [orZero, F64.truthy]

theorem parseFloat_zero : parseFloat "0" = F64.zero false := by decide

theorem parseFloat_undefined : parseFloat "undefined" = F64.nan := by decide

theorem orZero_parseFloat_zero : orZero (parseFloat "0") = F64.zero false := by
  rw [parseFloat_zero]; simp [orZero, F64.truthy]

/-- Counting an input as `0` does not change the number the calculation
reads from it. -/
theorem orZero_countedAsZero (input : Option InputElement) :
    orZero (parseFloat (optionalValue (countedAsZero input))) =
      orZero (parseFloat (optionalValue input)) := by
  cases input with
  | none =>
    simp only [countedAsZero, optionalValue]
    rw [parseFloat_undefined, orZero_nan, orZero_parseFloat_zero]
  | some el =>
    simp only [countedAsZero]
    by_cases h : parseFloat el.value = F64.nan
    · simp only [h, if_true, optionalValue]
      rw [orZero_nan, orZero_parseFloat_zero]
    · simp only [h, if_false]

/-- Unfolding of `calculateRowTotal` for a row whose three required inputs
are present. -/
theorem calculateRowTotal_present (qi pi vi : InputElement) (di : Option InputElement) :
    calculateRowTotal
        { quantityInput := some qi, priceInput := some pi, vatRateInput := some vi,
          discountInput := di } =
      some (specTotals (orZero (parseFloat qi.value)) (orZero (parseFloat pi.value))
        (orZero (parseFloat vi.value)) (orZero (parseFloat (optionalValue di)))) := by
  simp [calculateRowTotal, specTotals]

/-- C1. For non-negative quantity, unit price, VAT rate and discount (also
when the discount exceeds quantity times price), `calculateRowTotal` computes
`subtotal = q*p - d`, `vatAmount = subtotal * (v/100)` and
`total = subtotal + vatAmount` in double arithmetic; for 3, 100, 15 and 10
the results are the doubles 290, 43.5 and 333.5, whose values are exactly
the rationals 290, 87/2 and 667/2. -/
theorem calculateRowTotal_formula :
    (∀ quantity price vatRate discount : String,
      isNonNegative (parseFloat quantity) = true →
      isNonNegative (parseFloat price) = true →
      isNonNegative (parseFloat vatRate) = true →
      isNonNegative (parseFloat discount) = true →
      calculateRowTotal (rowOfValues quantity price vatRate discount) =
        some (specTotals (parseFloat quantity) (parseFloat price) (parseFloat vatRate)
          (parseFloat discount))) ∧
    calculateRowTotal (rowOfValues "3" "100" "15" "10") =
      some { subtotal := parseFloat "290", vatAmount := parseFloat "43.5",
             total := parseFloat "333.5" } ∧
    (calculateRowTotal (rowOfValues "3" "100" "15" "10")).map
        (fun t => (t.subtotal.toRat, t.vatAmount.toRat, t.total.toRat)) =
      some (some 290, some (87 / 2), some (667 / 2)) := by
  refine ⟨?_, by decide, ?_⟩
  · intro quantity price vatRate discount hq hp hv hd
    rw [rowOfValues, calculateRowTotal_present]
    simp only [optionalValue]
    rw [orZero_of_isNonNegative _ hq, orZero_of_isNonNegative _ hp,
      orZero_of_isNonNegative _ hv, orZero_of_isNonNegative _ hd]
  · have h : calculateRowTotal (rowOfValues "3" "100" "15" "10") =
        some { subtotal := F64.fin false 5101733952880640 (-44)
               vatAmount := F64.fin false 6122080743456768 (-47)
               total := F64.fin false 5866994045812736 (-44) } := by decide
    rw [h]
    simp only [Option.map_some', F64.toRat]
    norm_num

/-- Witness for C1: a discount of 500 on 3 items at 100 gives the negative
subtotal `3*100 - 500`, computed by the same formulas. -/
theorem calculateRowTotal_formula_witness :
    isNonNegative (parseFloat "3") = true ∧ isNonNegative (parseFloat "100") = true ∧
    isNonNegative (parseFloat "15") = true ∧ isNonNegative (parseFloat "500") = true ∧
    calculateRowTotal (rowOfValues "3" "100" "15" "500") =
      some (specTotals (parseFloat "3") (parseFloat "100") (parseFloat "15")
        (parseFloat "500")) :=
  ⟨by decide, by decide, by decide, by decide,
   calculateRowTotal_formula.1 "3" "100" "15" "500" (by decide) (by decide) (by decide)
     (by decide)⟩

/-- C7, as stated, fails: a discount text that is not a number but starts
with one, such as `12abc`, is not counted as `0`; `parseFloat` reads its
numeric prefix, so the row gets the totals of discount 12 (subtotal 288),
not those of discount 0 (subtotal 300). -/
theorem calculateRowTotal_discount_numeric_prefix :
    parseFloat "12abc" = parseFloat "12" ∧
    calculateRowTotal (rowOfValues "3" "100" "15" "12abc") =
      calculateRowTotal (rowOfValues "3" "100" "15" "12") ∧
    (calculateRowTotal (rowOfValues "3" "100" "15" "12abc")).map RowTotals.subtotal =
      some (parseFloat "288") ∧
    (calculateRowTotal (rowOfValues "3" "100" "15" "0")).map RowTotals.subtotal =
      some (parseFloat "300") ∧
    calculateRowTotal (rowOfValues "3" "100" "15" "12abc") ≠
      calculateRowTotal (rowOfValues "3" "100" "15" "0") := by
  decide

/-- C7, amended. For a row with quantity, unit-price and VAT-rate inputs,
whose discount input is missing or holds a value in which `parseFloat` finds
no number (`NaN`), `calculateRowTotal` produces three totals, and they are
exactly the totals it produces for the same row with discount `0`: those of
the formulas with discount `+0`. -/
theorem calculateRowTotal_discount_default (qi pi vi : InputElement)
    (di : Option InputElement)
    (h : di = none ∨ ∃ el, di = some el ∧ parseFloat el.value = F64.nan) :
    calculateRowTotal
        { quantityInput := some qi, priceInput := some pi, vatRateInput := some vi,
          discountInput := di } =
      some (specTotals (orZero (parseFloat qi.value)) (orZero (parseFloat pi.value))
        (orZero (parseFloat vi.value)) (F64.zero false)) ∧
    calculateRowTotal
        { quantityInput := some qi, priceInput := some pi, vatRateInput := some vi,
          discountInput := some ⟨"0"⟩ } =
      some (specTotals (orZero (parseFloat qi.value)) (orZero (parseFloat pi.value))
        (orZero (parseFloat vi.value)) (F64.zero false)) ∧
    ∃ t, calculateRowTotal
        { quantityInput := some qi, priceInput := some pi, vatRateInput := some vi,
          discountInput := di } = some t ∧
      calculateRowTotal
        { quantityInput := some qi, priceInput := some pi, vatRateInput := some vi,
          discountInput := some ⟨"0"⟩ } = some t := by
  have hd : orZero (parseFloat (optionalValue di)) = F64.zero false := by
    rcases h with h | ⟨el, h, hnan⟩
    · rw [h]; simp only [optionalValue]
      rw [parseFloat_undefined, orZero_nan]
    · rw [h]; simp only [optionalValue]
      rw [hnan, orZero_nan]
  have h0 : orZero (parseFloat (optionalValue (some (⟨"0"⟩ : InputElement)))) =
      F64.zero false := by
    simp only [optionalValue]
    exact orZero_parseFloat_zero
  have h1 := calculateRowTotal_present qi pi vi di
  have h2 := calculateRowTotal_present qi pi vi (some ⟨"0"⟩)
  rw [hd] at h1
  rw [h0] at h2
  exact ⟨h1, h2, _, h1, h2⟩

/-- Witness for C7 amended: a row without discount input, and a row whose
discount input holds `abc`; both get the totals of discount `0`, subtotal
300. -/
theorem calculateRowTotal_discount_default_witness :
    (∃ t, calculateRowTotal
        { quantityInput := some ⟨"3"⟩, priceInput := some ⟨"100"⟩,
          vatRateInput := some ⟨"15"⟩, discountInput := none } = some t ∧
      calculateRowTotal (rowOfValues "3" "100" "15" "0") = some t) ∧
    (∃ t, calculateRowTotal (rowOfValues "3" "100" "15" "abc") = some t ∧
      calculateRowTotal (rowOfValues "3" "100" "15" "0") = some t) ∧
    (calculateRowTotal (rowOfValues "3" "100" "15" "abc")).map RowTotals.subtotal =
      some (parseFloat "300") :=
  ⟨(calculateRowTotal_discount_default ⟨"3"⟩ ⟨"100"⟩ ⟨"15"⟩ none (Or.inl rfl)).2.2,
   (calculateRowTotal_discount_default ⟨"3"⟩ ⟨"100"⟩ ⟨"15"⟩ (some ⟨"abc"⟩)
     (Or.inr ⟨⟨"abc"⟩, rfl, by decide⟩)).2.2,
   by decide⟩

/-- C8, as stated, fails: a row without quantity input is not computed at
all, although with the quantity counted as `0` it has totals. -/
theorem calculateRowTotal_skips_missing_quantity :
    calculateRowTotal
        { quantityInput := none, priceInput := some ⟨"100"⟩,
          vatRateInput := some ⟨"15"⟩, discountInput := some ⟨"10"⟩ } = none ∧
    (calculateRowTotal (zeroFilled
        { quantityInput := none, priceInput := some ⟨"100"⟩,
          vatRateInput := some ⟨"15"⟩, discountInput := some ⟨"10"⟩ })).isSome = true := by
  decide

/-- C8, amended. When the quantity, unit-price and VAT-rate inputs are all
present, `calculateRowTotal` computes the three totals, with every value
that fails to parse and a missing discount input counted as `0`; when one of
the three inputs is missing it returns without computing. -/
theorem calculateRowTotal_total_when_present (row : Row) :
    (row.quantityInput.isSome = true ∧ row.priceInput.isSome = true ∧
        row.vatRateInput.isSome = true →
      ∃ t, calculateRowTotal row = some t ∧ calculateRowTotal (zeroFilled row) = some t) ∧
    (¬(row.quantityInput.isSome = true ∧ row.priceInput.isSome = true ∧
        row.vatRateInput.isSome = true) →
      calculateRowTotal row = none) := by
  obtain ⟨qi, pi, vi, di⟩ := row
  constructor
  · rintro ⟨hq, hp, hv⟩
    obtain ⟨qi, rfl⟩ := Option.isSome_iff_exists.mp hq
    obtain ⟨pi, rfl⟩ := Option.isSome_iff_exists.mp hp
    obtain ⟨vi, rfl⟩ := Option.isSome_iff_exists.mp hv
    refine ⟨_, calculateRowTotal_present qi pi vi di, ?_⟩
    have hq := orZero_countedAsZero (some qi)
    have hp := orZero_countedAsZero (some pi)
    have hv := orZero_countedAsZero (some vi)
    have hd := orZero_countedAsZero di
    obtain ⟨qz, hqz⟩ : ∃ z, countedAsZero (some qi) = some z := by
      simp only [countedAsZero]; split <;> exact ⟨_, rfl⟩
    obtain ⟨pz, hpz⟩ : ∃ z, countedAsZero (some pi) = some z := by
      simp only [countedAsZero]; split <;> exact ⟨_, rfl⟩
    obtain ⟨vz, hvz⟩ : ∃ z, countedAsZero (some vi) = some z := by
      simp only [countedAsZero]; split <;> exact ⟨_, rfl⟩
    simp only [zeroFilled]
    rw [hqz, hpz, hvz, calculateRowTotal_present]
    rw [hqz] at hq; rw [hpz] at hp; rw [hvz] at hv
    simp only [optionalValue] at hq hp hv
    rw [hq, hp, hv, hd]
  · intro h
    cases qi <;> cases pi <;> cases vi <;> simp_all [calculateRowTotal]

/-- Witness for C8 amended: quantity `abc` counts as `0`, and the discount
input is missing. -/
theorem calculateRowTotal_total_when_present_witness :
    ∃ t, calculateRowTotal
        { quantityInput := some ⟨"abc"⟩, priceInput := some ⟨"100"⟩,
          vatRateInput := some ⟨"15"⟩, discountInput := none } = some t ∧
      calculateRowTotal (rowOfValues "0" "100" "15" "0") = some t :=
  (calculateRowTotal_total_when_present
      { quantityInput := some ⟨"abc"⟩, priceInput := some ⟨"100"⟩,
        vatRateInput := some ⟨"15"⟩, discountInput := none }).1 ⟨rfl, rfl, rfl⟩

/-! ## The parser on the markup of a notification -/

theorem flushText_append (pending : List Char) (tokens base : List Token) :
    flushText pending (tokens ++ base) = flushText pending tokens ++ base := by
  unfold flushText
  split <;> simp

/-- The tokenizer does not look at the tokens it has emitted. -/
theorem tokenStep_base (s : TokenState) (c : Char) (base : List Token) :
    tokenStep { s with tokens := s.tokens ++ base } c =
      (tokenStep s c).map (fun r => { r with tokens := r.tokens ++ base }) := by
  obtain ⟨mode, pending, tokens⟩ := s
  cases mode <;> simp only [tokenStep] <;> split_ifs <;>
    simp [flushText_append]

theorem tokenRun_base (cs : List Char) (base : List Token) :
    ∀ s : TokenState, cs.foldlM tokenStep { s with tokens := s.tokens ++ base } =
      (cs.foldlM tokenStep s).map (fun r => { r with tokens := r.tokens ++ base }) := by
  induction cs with
  | nil => intro s; simp
  | cons c cs ih =>
    intro s
    simp only [List.foldlM_cons, tokenStep_base]
    cases h : tokenStep s c with
    | none => simp
    | some r => simpa using ih r

/-- Plain text is read as text. -/
theorem tokenRun_plain (cs : List Char) (h : cs.all isPlainChar = true) :
    ∀ pending tokens, cs.foldlM tokenStep
        { mode := TokenMode.data, pending := pending, tokens := tokens } =
      some { mode := TokenMode.data, pending := pending ++ cs, tokens := tokens } := by
  induction cs with
  | nil => intro pending tokens; simp
  | cons c cs ih =>
    intro pending tokens
    simp only [List.all_cons, Bool.and_eq_true] at h
    have hc : c ≠ '<' := by
      intro hc; subst hc; simp [isPlainChar] at h
    simp only [List.foldlM_cons, tokenStep, hc, if_false, h.1, if_true]
    simpa using ih h.2 (pending ++ [c]) tokens

/-- Tokens of a markup made of a part that ends in text, a plain text, more
plain text, and a rest that starts with a tag. -/
theorem tokenize_compose (pre X ws rest P0 : List Char) (T0 : List Token) (sR : TokenState)
    (hpre : pre.foldlM tokenStep tokenStart =
      some { mode := TokenMode.data, pending := P0, tokens := T0 })
    (hX : X.all isPlainChar = true) (hws : ws.all isPlainChar = true)
    (hne : (P0 ++ X ++ ws).isEmpty = false)
    (hrest : rest.foldlM tokenStep { mode := TokenMode.tagOpen, pending := [], tokens := [] } =
      some sR)
    (hmode : sR.mode = TokenMode.data) :
    tokenize (pre ++ (X ++ (ws ++ '<' :: rest))) =
      some (flushText sR.pending
        (sR.tokens ++ Token.text (String.mk (P0 ++ X ++ ws)) :: T0)).reverse := by
  have hbase := tokenRun_base rest (Token.text (String.mk (P0 ++ X ++ ws)) :: T0)
    { mode := TokenMode.tagOpen, pending := [], tokens := [] }
  rw [hrest] at hbase
  simp only [List.nil_append, Option.map_some'] at hbase
  unfold tokenize
  rw [List.foldlM_append, hpre]
  simp only [Option.bind_eq_bind, Option.some_bind]
  rw [List.foldlM_append, tokenRun_plain X hX]
  simp only [Option.bind_eq_bind, Option.some_bind]
  rw [List.foldlM_append, tokenRun_plain ws hws]
  simp only [Option.bind_eq_bind, Option.some_bind, List.foldlM_cons]
  have hstep : tokenStep { mode := TokenMode.data, pending := P0 ++ X ++ ws, tokens := T0 } '<' =
      some { mode := TokenMode.tagOpen, pending := [],
             tokens := Token.text (String.mk (P0 ++ X ++ ws)) :: T0 } := by
    simp only [tokenStep, if_true, flushText, hne, Bool.false_eq_true, if_false]
  rw [hstep]
  simp only [Option.bind_eq_bind, Option.some_bind]
  rw [hbase]
  simp [hmode]

/-- The tokens of the markup of an error notification with a plain-text
message. -/
theorem tokenize_alertHtml_plain (X : String) (hX : isPlainText X = true) :
    tokenize (alertHtml "alert-danger" X).toList =
      some [Token.text "\n        ",
            Token.startTag "div"
              [("class", "alert alert-danger alert-dismissible fade show"), ("role", "alert")],
            Token.text ("\n            " ++ X ++ "\n            "),
            Token.startTag "button"
              [("type", "button"), ("class", "btn-close"), ("data-bs-dismiss", "alert")],
            Token.endTag "button",
            Token.text "\n        ",
            Token.endTag "div",
            Token.text "\n    "] := by
  have hsplit : (alertHtml "alert-danger" X).toList =
      "\n        <div class=\"alert alert-danger alert-dismissible fade show\" role=\"alert\">\n            ".toList ++
        (X.toList ++ ("\n            ".toList ++ ('<' ::
          "button type=\"button\" class=\"btn-close\" data-bs-dismiss=\"alert\"></button>\n        </div>\n    ".toList))) := by
    simp [alertHtml, String.toList]
  have hpre :
      "\n        <div class=\"alert alert-danger alert-dismissible fade show\" role=\"alert\">\n            ".toList.foldlM
        tokenStep tokenStart =
      some { mode := TokenMode.data, pending := "\n            ".toList,
             tokens := [Token.startTag "div"
               [("class", "alert alert-danger alert-dismissible fade show"),
                ("role", "alert")], Token.text "\n        "] } := by
    decide
  have hrest :
      "button type=\"button\" class=\"btn-close\" data-bs-dismiss=\"alert\"></button>\n        </div>\n    ".toList.foldlM
        tokenStep { mode := TokenMode.tagOpen, pending := [], tokens := [] } =
      some { mode := TokenMode.data, pending := "\n    ".toList,
             tokens := [Token.endTag "div", Token.text "\n        ", Token.endTag "button",
               Token.startTag "button"
                 [("type", "button"), ("class", "btn-close"), ("data-bs-dismiss", "alert")]] } := by
    decide
  have hws : "\n            ".toList.all isPlainChar = true := by decide
  have hne : ("\n            ".toList ++ X.toList ++ "\n            ".toList).isEmpty = false := by
    rfl
  have key := tokenize_compose _ X.toList _ _ _ _ _ hpre hX hws hne hrest rfl
  rw [hsplit, key]
  rfl

/-- The elements of an error notification with a plain-text message: the
alert holding the message, and its dismiss button. -/
theorem parseFragment_alertHtml_plain (X : String) (hX : isPlainText X = true) :
    parseFragment (alertHtml "alert-danger" X) =
      some [{ depth := 0, tag := "div",
              classAttr := "alert alert-danger alert-dismissible fade show",
              text := "\n            " ++ X ++ "\n            \n        " },
            { depth := 1, tag := "button", classAttr := "btn-close", text := "" }] := by
  have htext : "" ++ ("\n            " ++ X ++ "\n            ") ++ "\n        " =
      "\n            " ++ X ++ "\n            \n        " := by
    apply String.ext
    simp only [String.data_append, List.append_assoc]
    rfl
  unfold parseFragment
  rw [tokenize_alertHtml_plain X hX, ← htext]
  rfl

/-! ## Properties of `showNotification` and `checkInvoiceStatus` -/

/-- A call of `showNotification` with a string message, on a page that has
a notification region, when the parser creates the elements `created` from
the markup. -/
theorem showNotification_string (fmt : F64 → String) (text : String) (type : Option String)
    (p : Page) (els : List Element) (created : List FragElement)
    (hregion : p.container = some els)
    (hparse : parseFragment (alertHtml (alertClass (type.getD "info")).render text) =
      some created) :
    showNotification fmt (JsValue.string text) type p =
      Outcome.done { container := some (withIds p.nextId created ++ els)
                     timers := p.timers ++
                       [{ due := p.now + 5000, callback := TimerCallback.closeFirstAlert }]
                     now := p.now
                     nextId := p.nextId + created.length
                     trace := p.trace ++ [Effect.inserted p.nextId] } := by
  simp [showNotification, JsValue.toDisplayString, hregion, hparse]

/-- A call of `showNotification` with a string message, on a page without a
notification region, changes nothing. -/
theorem showNotification_string_noRegion (fmt : F64 → String) (text : String)
    (type : Option String) (p : Page) (hregion : p.container = none) :
    showNotification fmt (JsValue.string text) type p = Outcome.done p := by
  simp [showNotification, JsValue.toDisplayString, hregion]

theorem alertClass_success : (alertClass "success").render = "alert-success" := by decide

theorem alertClass_error : (alertClass "error").render = "alert-danger" := by decide

/-- The elements that the parser creates for the success notification. -/
theorem parseFragment_success :
    parseFragment (alertHtml "alert-success" "Status updated successfully") =
      some [{ depth := 0, tag := "div",
              classAttr := "alert alert-success alert-dismissible fade show",
              text := "\n            Status updated successfully\n            \n        " },
            { depth := 1, tag := "button", classAttr := "btn-close", text := "" }] := by
  decide

/-- The elements that the parser creates for the generic failure
notification. -/
theorem parseFragment_generic :
    parseFragment (alertHtml "alert-danger" "Error checking status") =
      some [{ depth := 0, tag := "div",
              classAttr := "alert alert-danger alert-dismissible fade show",
              text := "\n            Error checking status\n            \n        " },
            { depth := 1, tag := "button", classAttr := "btn-close", text := "" }] := by
  decide

theorem hasClass_alert_success (id depth : Nat) (tag text : String) :
    hasClass "alert"
      { id := id, depth := depth, tag := tag,
        classAttr := "alert alert-success alert-dismissible fade show", text := text } = true := by
  rfl

theorem hasClass_alert_danger (id depth : Nat) (tag text : String) :
    hasClass "alert"
      { id := id, depth := depth, tag := tag,
        classAttr := "alert alert-danger alert-dismissible fade show", text := text } = true := by
  rfl

theorem hasClass_alert_button (id depth : Nat) (tag text : String) :
    hasClass "alert"
      { id := id, depth := depth, tag := tag, classAttr := "btn-close", text := text } = false := by
  rfl

/-- The `.catch` handler on a page that has a notification region. -/
theorem catchHandler_region (fmt : F64 → String) (error : String) (p : Page)
    (els : List Element) (hregion : p.container = some els) :
    catchHandler fmt error p =
      some { container := some
               (notificationElements p.nextId "alert-danger" "Error checking status" ++ els)
             timers := p.timers ++
               [{ due := p.now + 5000, callback := TimerCallback.closeFirstAlert }]
             now := p.now
             nextId := p.nextId + 2
             trace := p.trace ++ [Effect.inserted p.nextId, Effect.consoleError error] } := by
  have hparse : parseFragment
      (alertHtml (alertClass ((some "error" : Option String).getD "info")).render
        "Error checking status") =
      some [{ depth := 0, tag := "div",
              classAttr := "alert alert-danger alert-dismissible fade show",
              text := "\n            Error checking status\n            \n        " },
            { depth := 1, tag := "button", classAttr := "btn-close", text := "" }] := by
    simp only [Option.getD_some, alertClass_error]
    exact parseFragment_generic
  rw [catchHandler, showNotification_string fmt _ _ p els _ hregion hparse]
  simp [withIds, notificationElements]

/-- The `.catch` handler on a page without a notification region only logs. -/
theorem catchHandler_noRegion (fmt : F64 → String) (error : String) (p : Page)
    (hregion : p.container = none) :
    catchHandler fmt error p =
      some { p with trace := p.trace ++ [Effect.consoleError error] } := by
  rw [catchHandler, showNotification_string_noRegion fmt _ _ p hregion]

/-- Whatever the page, the `.catch` handler appends one `console.error`,
preceded by the `insertAdjacentHTML` call when there is a region, and
nothing else. -/
theorem catchHandler_trace (fmt : F64 → String) (error : String) (p : Page) :
    (catchHandler fmt error p).map Page.trace =
      some (p.trace ++ (if p.container.isSome then [Effect.inserted p.nextId] else []) ++
        [Effect.consoleError error]) := by
  cases h : p.container with
  | none => rw [catchHandler_noRegion fmt error p h]; simp
  | some els => rw [catchHandler_region fmt error p els h]; simp

/-- C2. When the response parses as JSON with `success` equal to `true` (or
to any other truthy value, which is what `if (data.success)` tests) and the
page has a notification region, the call issues its request, creates exactly
one notification, of severity success, then reloads the page exactly once,
and does nothing else. -/
theorem checkInvoiceStatus_success (fmt : F64 → String) (invoiceId : String) (status : Nat)
    (data success : JsValue) (p : Page) (els : List Element)
    (hsuccess : data.getProp "success" = some success)
    (htruthy : success.truthy = true)
    (hregion : p.container = some els) :
    checkInvoiceStatus fmt invoiceId (FetchOutcome.response status (Except.ok data)) p =
      some { container := some
               (notificationElements p.nextId "alert-success" "Status updated successfully" ++
                 els)
             timers := p.timers ++
               [{ due := p.now + 5000, callback := TimerCallback.closeFirstAlert }]
             now := p.now
             nextId := p.nextId + 2
             trace := p.trace ++
               [Effect.request ("/invoices/" ++ invoiceId ++ "/status/"),
                Effect.inserted p.nextId, Effect.reload] } ∧
    (checkInvoiceStatus fmt invoiceId (FetchOutcome.response status (Except.ok data)) p).map
        (fun q => (alerts q).length) = some ((alerts p).length + 1) ∧
    (checkInvoiceStatus fmt invoiceId (FetchOutcome.response status (Except.ok data)) p).map
        (fun q => insertedCount q.trace) = some (insertedCount p.trace + 1) ∧
    (checkInvoiceStatus fmt invoiceId (FetchOutcome.response status (Except.ok data)) p).map
        (fun q => reloadCount q.trace) = some (reloadCount p.trace + 1) := by
  have hparse : parseFragment
      (alertHtml (alertClass ((some "success" : Option String).getD "info")).render
        "Status updated successfully") =
      some [{ depth := 0, tag := "div",
              classAttr := "alert alert-success alert-dismissible fade show",
              text := "\n            Status updated successfully\n            \n        " },
            { depth := 1, tag := "button", classAttr := "btn-close", text := "" }] := by
    simp only [Option.getD_some, alertClass_success]
    exact parseFragment_success
  have h : checkInvoiceStatus fmt invoiceId (FetchOutcome.response status (Except.ok data)) p =
      some { container := some
               (notificationElements p.nextId "alert-success" "Status updated successfully" ++
                 els)
             timers := p.timers ++
               [{ due := p.now + 5000, callback := TimerCallback.closeFirstAlert }]
             now := p.now
             nextId := p.nextId + 2
             trace := p.trace ++
               [Effect.request ("/invoices/" ++ invoiceId ++ "/status/"),
                Effect.inserted p.nextId, Effect.reload] } := by
    simp only [checkInvoiceStatus, dataHandler, hsuccess, htruthy, if_true]
    rw [showNotification_string fmt _ _ _ els _ (by exact hregion) hparse]
    simp [withIds, notificationElements]
  rw [h]
  refine ⟨rfl, ?_, ?_, ?_⟩
  · simp [alerts, notificationElements, hregion, List.filter_cons, hasClass_alert_success,
      hasClass_alert_button]
  · simp [insertedCount, List.filter_append]
  · simp [reloadCount, List.count_append]

/-- Witness for C2: invoice 7, a 200 response with body `{"success": true}`
and an empty region. -/
theorem checkInvoiceStatus_success_witness :
    checkInvoiceStatus (fun _ => "") "7"
        (FetchOutcome.response 200
          (Except.ok (JsValue.object [("success", JsValue.bool true)]))) emptyRegion =
      some { container := some
               [{ id := 0, depth := 0, tag := "div",
                  classAttr := "alert alert-success alert-dismissible fade show",
                  text := "\n            Status updated successfully\n            \n        " },
                { id := 1, depth := 1, tag := "button", classAttr := "btn-close", text := "" }]
             timers := [{ due := 5000, callback := TimerCallback.closeFirstAlert }]
             now := 0
             nextId := 2
             trace := [Effect.request "/invoices/7/status/", Effect.inserted 0,
                       Effect.reload] } := by
  have h := (checkInvoiceStatus_success (fun _ => "") "7" 200
    (JsValue.object [("success", JsValue.bool true)]) (JsValue.bool true) emptyRegion []
    rfl rfl rfl).1
  rw [h]; rfl

/-- C3, as stated, fails: the message is inserted as markup, and a message
that holds markup creates more than the one notification.  For the message
`</div><div class="alert alert-permanent">x` the call creates two alerts,
the error notification (now empty) and a second alert, marked non-expiring,
that holds the dismiss button; the timer removes only the first. -/
theorem checkInvoiceStatus_failure_markup :
    checkInvoiceStatus (fun _ => "") "7"
        (FetchOutcome.response 200
          (Except.ok (JsValue.object [("success", JsValue.bool false),
            ("message", JsValue.string "</div><div class=\"alert alert-permanent\">x")])))
        emptyRegion =
      some { container := some
               [{ id := 0, depth := 0, tag := "div",
                  classAttr := "alert alert-danger alert-dismissible fade show",
                  text := "\n            " },
                { id := 1, depth := 0, tag := "div", classAttr := "alert alert-permanent",
                  text := "x\n            \n        " },
                { id := 2, depth := 1, tag := "button", classAttr := "btn-close", text := "" }]
             timers := [{ due := 5000, callback := TimerCallback.closeFirstAlert }]
             now := 0
             nextId := 3
             trace := [Effect.request "/invoices/7/status/", Effect.inserted 0] } ∧
    (checkInvoiceStatus (fun _ => "") "7"
        (FetchOutcome.response 200
          (Except.ok (JsValue.object [("success", JsValue.bool false),
            ("message", JsValue.string "</div><div class=\"alert alert-permanent\">x")])))
        emptyRegion).map (fun q => (alerts q).length) = some 2 ∧
    (checkInvoiceStatus (fun _ => "") "7"
        (FetchOutcome.response 200
          (Except.ok (JsValue.object [("success", JsValue.bool false),
            ("message", JsValue.string "</div><div class=\"alert alert-permanent\">x")])))
        emptyRegion).map (fun q => regionIds (advanceTo 5000 q)) = some [1, 2] := by
  decide

/-- How `showNotification` can change the trace: not at all, or by one
`insertAdjacentHTML` call. -/
theorem showNotification_trace (fmt : F64 → String) (message : JsValue) (type : Option String)
    (p q : Page) (h : showNotification fmt message type p = Outcome.done q) :
    q.trace = p.trace ∨ q.trace = p.trace ++ [Effect.inserted p.nextId] := by
  unfold showNotification at h
  simp only [] at h
  split at h
  · exact absurd h (by simp)
  · split at h
    · left; injection h with h; rw [← h]
    · split at h
      · exact absurd h (by simp)
      · right; injection h with h; rw [← h]

/-- C3, amended. When the response is `{success: false, message: X}`, the
page has a notification region and `X` is plain text for the HTML parser (it
holds none of `<`, `&`, carriage return and NUL), the call issues its
request, creates exactly one notification, of severity error, whose text
contains `X`, and does nothing else.  Whatever the message holds, the page
is not reloaded. -/
theorem checkInvoiceStatus_failure (fmt : F64 → String) (invoiceId : String) (status : Nat)
    (X : String) (p : Page) (els : List Element)
    (hplain : isPlainText X = true)
    (hregion : p.container = some els) :
    checkInvoiceStatus fmt invoiceId
        (FetchOutcome.response status
          (Except.ok (JsValue.object [("success", JsValue.bool false),
            ("message", JsValue.string X)]))) p =
      some { container := some
               ({ id := p.nextId, depth := 0, tag := "div",
                  classAttr := "alert alert-danger alert-dismissible fade show",
                  text := "\n            " ++ X ++ "\n            \n        " } ::
                { id := p.nextId + 1, depth := 1, tag := "button", classAttr := "btn-close",
                  text := "" } :: els)
             timers := p.timers ++
               [{ due := p.now + 5000, callback := TimerCallback.closeFirstAlert }]
             now := p.now
             nextId := p.nextId + 2
             trace := p.trace ++
               [Effect.request ("/invoices/" ++ invoiceId ++ "/status/"),
                Effect.inserted p.nextId] } ∧
    (checkInvoiceStatus fmt invoiceId
        (FetchOutcome.response status
          (Except.ok (JsValue.object [("success", JsValue.bool false),
            ("message", JsValue.string X)]))) p).map
        (fun q => (alerts q).length) = some ((alerts p).length + 1) ∧
    (∀ (Y : String) (q : Page),
      checkInvoiceStatus fmt invoiceId
          (FetchOutcome.response status
            (Except.ok (JsValue.object [("success", JsValue.bool false),
              ("message", JsValue.string Y)]))) p = some q →
        reloadCount q.trace = reloadCount p.trace) := by
  have hparse : parseFragment
      (alertHtml (alertClass ((some "error" : Option String).getD "info")).render X) =
      some [{ depth := 0, tag := "div",
              classAttr := "alert alert-danger alert-dismissible fade show",
              text := "\n            " ++ X ++ "\n            \n        " },
            { depth := 1, tag := "button", classAttr := "btn-close", text := "" }] := by
    simp only [Option.getD_some, alertClass_error]
    exact parseFragment_alertHtml_plain X hplain
  have hget : ∀ Z : String,
      (JsValue.object [("success", JsValue.bool false), ("message", JsValue.string Z)]).getProp
          "success" = some (JsValue.bool false) ∧
      (JsValue.object [("success", JsValue.bool false), ("message", JsValue.string Z)]).getProp
          "message" = some (JsValue.string Z) := by
    intro Z
    constructor
    · rfl
    · simp only [JsValue.getProp, List.lookup]
      rfl
  have h : checkInvoiceStatus fmt invoiceId
        (FetchOutcome.response status
          (Except.ok (JsValue.object [("success", JsValue.bool false),
            ("message", JsValue.string X)]))) p =
      some { container := some
               ({ id := p.nextId, depth := 0, tag := "div",
                  classAttr := "alert alert-danger alert-dismissible fade show",
                  text := "\n            " ++ X ++ "\n            \n        " } ::
                { id := p.nextId + 1, depth := 1, tag := "button", classAttr := "btn-close",
                  text := "" } :: els)
             timers := p.timers ++
               [{ due := p.now + 5000, callback := TimerCallback.closeFirstAlert }]
             now := p.now
             nextId := p.nextId + 2
             trace := p.trace ++
               [Effect.request ("/invoices/" ++ invoiceId ++ "/status/"),
                Effect.inserted p.nextId] } := by
    simp only [checkInvoiceStatus, dataHandler, (hget X).1, (hget X).2, JsValue.truthy,
      Bool.false_eq_true, if_false]
    rw [showNotification_string fmt _ _ _ els _ (by exact hregion) hparse]
    simp [withIds]
  refine ⟨h, ?_, ?_⟩
  · rw [h]
    simp [alerts, hregion, List.filter_cons, hasClass_alert_danger, hasClass_alert_button]
  · intro Y q hq
    simp only [checkInvoiceStatus, dataHandler, (hget Y).1, (hget Y).2, JsValue.truthy,
      Bool.false_eq_true, if_false] at hq
    split at hq
    · rename_i r hr
      injection hq with hq
      subst hq
      rcases showNotification_trace _ _ _ _ _ hr with ht | ht <;> rw [ht] <;>
        simp [reloadCount, List.count_append]
    · rename_i hr
      simp [showNotification, JsValue.toDisplayString] at hr
      split at hr <;> try split at hr
      all_goals simp at hr
    · exact absurd hq (by simp)

/-- Witness for C3 amended: the body
`{"success": false, "message": "Invoice not found"}`. -/
theorem checkInvoiceStatus_failure_witness :
    isPlainText "Invoice not found" = true ∧
    checkInvoiceStatus (fun _ => "") "7"
        (FetchOutcome.response 200
          (Except.ok (JsValue.object [("success", JsValue.bool false),
            ("message", JsValue.string "Invoice not found")]))) emptyRegion =
      some { container := some
               [{ id := 0, depth := 0, tag := "div",
                  classAttr := "alert alert-danger alert-dismissible fade show",
                  text := "\n            Invoice not found\n            \n        " },
                { id := 1, depth := 1, tag := "button", classAttr := "btn-close", text := "" }]
             timers := [{ due := 5000, callback := TimerCallback.closeFirstAlert }]
             now := 0
             nextId := 2
             trace := [Effect.request "/invoices/7/status/", Effect.inserted 0] } := by
  refine ⟨by decide, ?_⟩
  have h := (checkInvoiceStatus_failure (fun _ => "") "7" 200 "Invoice not found"
    emptyRegion [] (by decide) rfl).1
  rw [h]; rfl

/-- C4, as stated, fails: on a page without notification region a rejected
request creates no notification; it is only logged. -/
theorem checkInvoiceStatus_rejected_without_region :
    checkInvoiceStatus (fun _ => "") "7" (FetchOutcome.rejected "Failed to fetch") noRegion =
      some { container := none, timers := [], now := 0, nextId := 0,
             trace := [Effect.request "/invoices/7/status/",
                       Effect.consoleError "Failed to fetch"] } ∧
    (checkInvoiceStatus (fun _ => "") "7" (FetchOutcome.rejected "Failed to fetch")
        noRegion).map (fun q => insertedCount q.trace) = some 0 ∧
    (checkInvoiceStatus (fun _ => "") "7" (FetchOutcome.rejected "Failed to fetch")
        noRegion).map (fun q => (alerts q).length) = some 0 := by
  decide

/-- C4, amended. When the request is rejected, exactly one `console.error`
entry is written, the page is not reloaded and no second request is issued;
when the page has a notification region, exactly one notification is
created, the generic `Error checking status` of severity error, before the
log entry. -/
theorem checkInvoiceStatus_rejected (fmt : F64 → String) (invoiceId error : String)
    (p : Page) :
    (∀ els, p.container = some els →
      checkInvoiceStatus fmt invoiceId (FetchOutcome.rejected error) p =
        some { container := some
                 (notificationElements p.nextId "alert-danger" "Error checking status" ++ els)
               timers := p.timers ++
                 [{ due := p.now + 5000, callback := TimerCallback.closeFirstAlert }]
               now := p.now
               nextId := p.nextId + 2
               trace := p.trace ++
                 [Effect.request ("/invoices/" ++ invoiceId ++ "/status/"),
                  Effect.inserted p.nextId, Effect.consoleError error] }) ∧
    (checkInvoiceStatus fmt invoiceId (FetchOutcome.rejected error) p).map
        (fun q => errorLogCount q.trace) = some (errorLogCount p.trace + 1) ∧
    (checkInvoiceStatus fmt invoiceId (FetchOutcome.rejected error) p).map
        (fun q => reloadCount q.trace) = some (reloadCount p.trace) ∧
    (checkInvoiceStatus fmt invoiceId (FetchOutcome.rejected error) p).map
        (fun q => requestCount q.trace) = some (requestCount p.trace + 1) ∧
    (checkInvoiceStatus fmt invoiceId (FetchOutcome.rejected error) p).map
        (fun q => insertedCount q.trace) =
      some (insertedCount p.trace + (if p.container.isSome then 1 else 0)) ∧
    (checkInvoiceStatus fmt invoiceId (FetchOutcome.rejected error) p).map
        (fun q => (alerts q).length) =
      some ((alerts p).length + (if p.container.isSome then 1 else 0)) := by
  have hregion : ∀ els, p.container = some els →
      checkInvoiceStatus fmt invoiceId (FetchOutcome.rejected error) p =
        some { container := some
                 (notificationElements p.nextId "alert-danger" "Error checking status" ++ els)
               timers := p.timers ++
                 [{ due := p.now + 5000, callback := TimerCallback.closeFirstAlert }]
               now := p.now
               nextId := p.nextId + 2
               trace := p.trace ++
                 [Effect.request ("/invoices/" ++ invoiceId ++ "/status/"),
                  Effect.inserted p.nextId, Effect.consoleError error] } := by
    intro els hregion
    simp only [checkInvoiceStatus]
    rw [catchHandler_region fmt error _ els (by exact hregion)]
    simp
  refine ⟨hregion, ?_⟩
  cases hc : p.container with
  | none =>
    have h : checkInvoiceStatus fmt invoiceId (FetchOutcome.rejected error) p =
        some { p with trace := p.trace ++
          [Effect.request ("/invoices/" ++ invoiceId ++ "/status/"),
           Effect.consoleError error] } := by
      simp only [checkInvoiceStatus]
      rw [catchHandler_noRegion fmt error _ (by exact hc)]
      simp
    rw [h]
    simp [errorLogCount, reloadCount, requestCount, insertedCount, List.filter_append,
      List.count_append, alerts, hc]
  | some els =>
    rw [hregion els hc]
    simp [errorLogCount, reloadCount, requestCount, insertedCount, List.filter_append,
      List.count_append, alerts, hc, notificationElements, List.filter_cons,
      hasClass_alert_danger, hasClass_alert_button]

/-- Witness for C4 amended: a rejected request on a page with an empty
region. -/
theorem checkInvoiceStatus_rejected_witness :
    checkInvoiceStatus (fun _ => "") "7" (FetchOutcome.rejected "Failed to fetch")
        emptyRegion =
      some { container := some
               [{ id := 0, depth := 0, tag := "div",
                  classAttr := "alert alert-danger alert-dismissible fade show",
                  text := "\n            Error checking status\n            \n        " },
                { id := 1, depth := 1, tag := "button", classAttr := "btn-close", text := "" }]
             timers := [{ due := 5000, callback := TimerCallback.closeFirstAlert }]
             now := 0
             nextId := 2
             trace := [Effect.request "/invoices/7/status/", Effect.inserted 0,
                       Effect.consoleError "Failed to fetch"] } := by
  have h := (checkInvoiceStatus_rejected (fun _ => "") "7" "Failed to fetch" emptyRegion).1
    [] rfl
  rw [h]; rfl

/-- C5, as stated, fails: a 500 response with body `{"success": true}`
reloads the page, a body `{"success": 1}` reloads the page, and a body `{}`
gives an error notification without any log entry. -/
theorem checkInvoiceStatus_ignores_status_and_shape :
    (checkInvoiceStatus (fun _ => "") "7"
        (FetchOutcome.response 500
          (Except.ok (JsValue.object [("success", JsValue.bool true)]))) emptyRegion).map
        Page.trace =
      some [Effect.request "/invoices/7/status/", Effect.inserted 0, Effect.reload] ∧
    (checkInvoiceStatus (fun _ => "") "7"
        (FetchOutcome.response 200
          (Except.ok (JsValue.object [("success", JsValue.number (F64.ofNat 1))])))
        emptyRegion).map Page.trace =
      some [Effect.request "/invoices/7/status/", Effect.inserted 0, Effect.reload] ∧
    (checkInvoiceStatus (fun _ => "") "7"
        (FetchOutcome.response 200 (Except.ok (JsValue.object []))) emptyRegion).map
        Page.trace =
      some [Effect.request "/invoices/7/status/", Effect.inserted 0] ∧
    (checkInvoiceStatus (fun _ => "") "7"
        (FetchOutcome.response 200 (Except.ok (JsValue.object []))) emptyRegion).map
        (fun q => (alerts q).map Element.text) =
      some ["\n            undefined\n            \n        "] ∧
    (checkInvoiceStatus (fun _ => "") "7" (FetchOutcome.rejected "Failed to fetch")
        emptyRegion).map Page.trace =
      some [Effect.request "/invoices/7/status/", Effect.inserted 0,
            Effect.consoleError "Failed to fetch"] := by
  decide

/-- C5, amended. A response whose body does not parse as JSON, or parses to
`null`, has the outcome of a network failure (the rejected request with the
same error): the generic notification when the page has a region, one
`console.error` entry, no reload.  The HTTP status is never examined: the
outcome depends on the body alone. -/
theorem checkInvoiceStatus_unparsable_body (fmt : F64 → String) (invoiceId : String)
    (status : Nat) (p : Page) :
    (∀ error,
      checkInvoiceStatus fmt invoiceId (FetchOutcome.response status (Except.error error)) p =
        checkInvoiceStatus fmt invoiceId (FetchOutcome.rejected error) p) ∧
    checkInvoiceStatus fmt invoiceId (FetchOutcome.response status (Except.ok JsValue.null)) p =
      checkInvoiceStatus fmt invoiceId (FetchOutcome.rejected "TypeError") p ∧
    (∀ error,
      (checkInvoiceStatus fmt invoiceId (FetchOutcome.rejected error) p).map Page.trace =
        some (p.trace ++ [Effect.request ("/invoices/" ++ invoiceId ++ "/status/")] ++
          (if p.container.isSome then [Effect.inserted p.nextId] else []) ++
          [Effect.consoleError error])) ∧
    (∀ otherStatus body,
      checkInvoiceStatus fmt invoiceId (FetchOutcome.response status body) p =
        checkInvoiceStatus fmt invoiceId (FetchOutcome.response otherStatus body) p) := by
  refine ⟨fun error => rfl, rfl, fun error => ?_, fun otherStatus body => ?_⟩
  · simp only [checkInvoiceStatus, catchHandler_trace]
  · cases body <;> rfl

/-- C6 fails on the code: the severities `constructor` and `toString` (and
`__proto__`) are not mapped to `alert-info`; the lookup finds the members of
`Object.prototype`, and the notification gets their text as class. -/
theorem alertClass_inherited_member :
    alertClass "constructor" = ClassValue.nativeFunction "Object" ∧
    alertClass "toString" = ClassValue.nativeFunction "toString" ∧
    alertClass "__proto__" = ClassValue.objectPrototype ∧
    showNotification (fun _ => "") (JsValue.string "hello") (some "constructor") emptyRegion =
      Outcome.done
        { container := some
            [{ id := 0, depth := 0, tag := "div",
               classAttr :=
                 "alert function Object() \x7b [native code] \x7d alert-dismissible fade show",
               text := "\n            hello\n            \n        " },
             { id := 1, depth := 1, tag := "button", classAttr := "btn-close", text := "" }]
          timers := [{ due := 5000, callback := TimerCallback.closeFirstAlert }]
          now := 0
          nextId := 2
          trace := [Effect.inserted 0] } := by
  decide

/-- The part of C6 that holds: the four severities map to four distinct
classes, an omitted severity is `info`, and every other severity that is
not the name of a member of `Object.prototype` maps to `alert-info`. -/
theorem alertClass_known_and_default :
    alertClass "success" = ClassValue.text "alert-success" ∧
    alertClass "error" = ClassValue.text "alert-danger" ∧
    alertClass "warning" = ClassValue.text "alert-warning" ∧
    alertClass "info" = ClassValue.text "alert-info" ∧
    alertClass ((none : Option String).getD "info") = ClassValue.text "alert-info" ∧
    ∀ type : String, alertClassTable.lookup type = none →
      objectPrototypeFunctions.lookup type = none → type ≠ "__proto__" →
      alertClass type = ClassValue.text "alert-info" := by
  refine ⟨by decide, by decide, by decide, by decide, by decide, ?_⟩
  intro type h1 h2 h3
  simp [alertClass, alertClassLookup, h1, h2, h3]

/-- C9 fails on the code: with two notifications created at 0 ms and at
1000 ms (elements 0 and 2, each with its dismiss button, 1 and 3), both are
in the region until 5000 ms; the timer of the first call, firing at
5000 ms, removes the second notification (4000 ms after it was created) and
leaves the first one, which only goes at 6000 ms. -/
theorem autoDismiss_removes_latest_notification :
    regionIds (notify "second" (advanceTo 1000 (notify "first" emptyRegion))) = [2, 3, 0, 1] ∧
    (alerts (notify "second" (advanceTo 1000 (notify "first" emptyRegion)))).map Element.id =
      [2, 0] ∧
    regionIds (advanceTo 4999
      (notify "second" (advanceTo 1000 (notify "first" emptyRegion)))) = [2, 3, 0, 1] ∧
    regionIds (advanceTo 5000
      (notify "second" (advanceTo 1000 (notify "first" emptyRegion)))) = [0, 1] ∧
    regionIds (advanceTo 6000
      (notify "second" (advanceTo 1000 (notify "first" emptyRegion)))) = [] := by
  decide

/-- A single notification, with nothing else in the region, is removed by
its own timer after 5000 ms. -/
theorem autoDismiss_single_notification :
    regionIds (advanceTo 4999 (notify "only" emptyRegion)) = [0, 1] ∧
    regionIds (advanceTo 5000 (notify "only" emptyRegion)) = [] := by
  decide

/-- The page-load path does what C9 says: the timer set by the
`DOMContentLoaded` handler closes the alert it was set for (element 0), also
when a newer notification (elements 1 and 2) stands before it. -/
theorem domContentLoaded_closes_own_alert :
    regionIds (advanceTo 5000 (notify "later" (advanceTo 1000 (domContentLoaded
      { container := some [{ id := 0, depth := 0, tag := "div", classAttr := "alert alert-info",
                             text := "Welcome" }]
        timers := [], now := 0, nextId := 1, trace := [] })))) = [1, 2] := by
  decide

/-- C10 fails on the code: after the notification (element 1, with its
dismiss button 2) is dismissed by hand, its timer still fires and removes
the first alert it finds, here a pre-rendered alert marked `alert-permanent`
(element 0). -/
theorem autoDismiss_after_manual_dismiss :
    regionIds (notify "saved" permanentRegion) = [1, 2, 0] ∧
    regionIds (manualDismiss 1 (notify "saved" permanentRegion)) = [0] ∧
    regionIds (advanceTo 4999 (manualDismiss 1 (notify "saved" permanentRegion))) = [0] ∧
    regionIds (advanceTo 5000 (manualDismiss 1 (notify "saved" permanentRegion))) = [] := by
  decide

/-- Grouping matters in double arithmetic: for quantity 3, price 1, VAT
rate 10 and no discount the code's `subtotal * (vatRate / 100)` is
`0.30000000000000004`, one unit in the last place above
`(subtotal * vatRate) / 100 = 0.3`. -/
theorem vatAmount_grouping :
    (calculateRowTotal (rowOfValues "3" "1" "10" "0")).map RowTotals.vatAmount =
      some (parseFloat "0.30000000000000004") ∧
    F64.div (F64.mul (parseFloat "3") (parseFloat "10")) (F64.ofNat 100) = parseFloat "0.3" ∧
    parseFloat "0.30000000000000004" ≠ parseFloat "0.3" := by
  decide

end Zatca
